import Mathlib

/-!
# Moderation client: shallow embedding of `main.go`

The package has two operations, `Session.MakeRequest` and `Client.Create`, and one
constructor, `NewClient`.  Both operations talk to collaborators that live outside the
package (`encoding/json`, `net/http`, `fmt`).  They are embedded as follows.

* `fmt.Errorf` and `fmt.Sprintf` are modelled concretely (`Errorf_w`, `Errorf_d`, `Sprintf_s`).
* `json.Marshal`, the validation done by `http.NewRequestWithContext`, the transport
  `http.DefaultClient.Do` and `json.Decoder.Decode` are fields of an environment `Env`;
  every general theorem quantifies over all environments.
* A concrete environment for the two payload shapes of the package (`Request`, `Response`)
  is given further down; it is used where a statement speaks about a concrete JSON text.
* Pointers are addresses into a `Heap`; every address is mapped, so `nil` receivers and
  arguments (on which the Go code panics) are outside the model.
* Every call to a collaborator is recorded, in program order, in a trace of `Event`s.
-/

namespace Moderation

/-! ## Go errors -/

/-- Go `error` values.  `lib` is an error created outside the package (by `encoding/json`,
`net/http`, `io`, ...), `errorString` is what `fmt.Errorf` returns for a format without
`%w`, `wrapError` is what it returns for a format with one `%w`. -/
inductive GoError where
  | lib (msg : String)
  | errorString (s : String)
  | wrapError (msg : String) (err : GoError)
  deriving DecidableEq, Repr

/-- The method `Error() string`. -/
def GoError.Error : GoError → String
  | .lib msg => msg
  | .errorString s => s
  | .wrapError msg _ => msg

/-- The function `errors.Unwrap`: the wrapped cause, `none` for `nil`. -/
def GoError.Unwrap : GoError → Option GoError
  | .lib _ => none
  | .errorString _ => none
  | .wrapError _ err => some err

/-- The verb `%d` applied to a Go `int`. -/
def fmtD (n : Int) : String :=
  if n < 0 then "-" ++ Nat.repr n.natAbs else Nat.repr n.toNat

/-- Models `fmt.Errorf(pre + "%w", err)`: the message is `pre` followed by `err.Error()`,
and the result unwraps to `err`. -/
def Errorf_w (pre : String) (err : GoError) : GoError :=
  .wrapError (pre ++ err.Error) err

/-- Models `fmt.Errorf(pre + "%d", n)`: no `%w`, so nothing is wrapped. -/
def Errorf_d (pre : String) (n : Int) : GoError :=
  .errorString (pre ++ fmtD n)

/-- Models `fmt.Sprintf(pre + "%s", s)`. -/
def Sprintf_s (pre : String) (s : String) : String :=
  pre ++ s

/-! ## net/http -/

/-- A `context.Context`, handed through to the transport untouched. -/
structure Context where
  key : Nat
  deriving DecidableEq, Repr

/-- The type `http.Header` restricted to single-valued keys. -/
abbrev Header := List (String × String)

/-- The method `Header.Set`: replaces whatever was stored under `key`.  The two keys the
package uses are already in canonical MIME form. -/
def Header.Set (h : Header) (key value : String) : Header :=
  (h.filter fun kv => kv.1 ≠ key) ++ [(key, value)]

/-- The method `Header.Get`: the value stored under `key`, the empty string when absent. -/
def Header.Get (h : Header) (key : String) : String :=
  match h.find? fun kv => kv.1 = key with
  | some kv => kv.2
  | none => ""

/-- The fields of `http.Request` the package sets. -/
structure HTTPRequest where
  ctx : Context
  Method : String
  URL : String
  Header : Header
  Body : String
  deriving DecidableEq, Repr

/-- The fields of `http.Response` the package reads. -/
structure HTTPResponse where
  StatusCode : Int
  Body : String
  deriving DecidableEq, Repr

/-- The constant `http.StatusOK`. -/
def StatusOK : Int := 200

/-! ## Data model (main.go lines 11-23 and 61-79) -/

/-- The constant `defaultCreateEndpoint` (main.go line 11). -/
def defaultCreateEndpoint : String := "https://api.openai.com/v1/moderations"

/-- Addresses of heap objects. -/
abbrev Ptr := Nat

/-- Session represents the HTTP session for interacting with the API. -/
structure Session where
  APIKey : String
  deriving DecidableEq, Repr

/-- Client is the moderation API client; `s` is a pointer to a `Session`. -/
structure Client where
  s : Ptr
  model : String
  CreateEndpoint : String
  deriving DecidableEq, Repr

/-- Request represents the moderation request payload. -/
structure Request where
  Model : String
  Input : String
  deriving DecidableEq, Repr

/-- A decimal number `(-1)^neg * mant * 10^exp10`.  A `float64` that was obtained by
`strconv.ParseFloat` is represented by the decimal it was parsed from: equal decimals are
parsed to equal floats. -/
structure Float64 where
  neg : Bool
  mant : Nat
  exp10 : Int
  deriving DecidableEq, Repr

/-- A Go `map[string]V` as an association list with distinct keys; the nil map and the
empty map are both `[]`. -/
abbrev GoMap (V : Type) := List (String × V)

/-- The index expression `m[key]`: the zero value when the key is absent. -/
def GoMap.index {V : Type} (zero : V) (m : GoMap V) (key : String) : V :=
  match m.find? fun kv => kv.1 = key with
  | some kv => kv.2
  | none => zero

/-- The assignment `m[key] = v`. -/
def GoMap.insert {V : Type} (m : GoMap V) (key : String) (v : V) : GoMap V :=
  if m.any fun kv => kv.1 = key then
    m.map fun kv => if kv.1 = key then (key, v) else kv
  else
    m ++ [(key, v)]

/-- Result represents a single moderation result. -/
structure Result where
  Categories : GoMap Bool
  CategoryScores : GoMap Float64
  Flagged : Bool
  deriving DecidableEq, Repr

/-- Response represents the moderation API response; the nil slice and the empty slice
are both `[]`. -/
structure Response where
  ID : String
  Model : String
  Results : List Result
  deriving DecidableEq, Repr

/-- The zero value of `Result`. -/
def Result.zero : Result := ⟨[], [], false⟩

/-- The zero value of `Response`, what `var r Response` declares. -/
def Response.zero : Response := ⟨"", "", []⟩

/-- The objects a caller holds pointers to. -/
structure Heap where
  sessions : Ptr → Session
  clients : Ptr → Client
  requests : Ptr → Request

/-! ## Environment and trace -/

/-- The collaborators of `Session.MakeRequest` for payloads of type `α` and result holders
of type `β`.
* `jsonMarshal` is `json.Marshal`;
* `newRequestError` is the validation of method and URL in `http.NewRequestWithContext`
  (`none` when the request can be constructed);
* `clientDo` is `http.DefaultClient.Do`;
* `jsonDecode` is `json.NewDecoder(body).Decode(result)`: it gets the body and the holder
  and returns the holder as it is left behind, with the error. -/
structure Env (α β : Type) where
  jsonMarshal : α → Except GoError String
  newRequestError : Context → String → String → Option GoError
  clientDo : HTTPRequest → Except GoError HTTPResponse
  jsonDecode : String → β → β × Option GoError

/-- The calls made while an operation runs, in program order, each with what it returned:
entry into `MakeRequest`, `json.Marshal`, `http.NewRequestWithContext`,
`http.DefaultClient.Do`, `Decoder.Decode` and the deferred `resp.Body.Close()`.  A `send`
is one call of `Do`; what the HTTP client does inside that call is not modelled. -/
inductive Event (α : Type) where
  | makeRequest (s : Session) (url : String) (payload : α)
  | marshal (payload : α) (res : Except GoError String)
  | newRequest (method url body : String) (res : Except GoError HTTPRequest)
  | send (req : HTTPRequest) (res : Except GoError HTTPResponse)
  | decode (body : String) (err : Option GoError)
  | close

/-- The function `http.NewRequestWithContext(ctx, method, url, bytes.NewReader(data))`: on
success the request carries the context, method, URL and body and an empty header. -/
def NewRequestWithContext {α β : Type} (env : Env α β) (ctx : Context)
    (method url data : String) : Except GoError HTTPRequest :=
  match env.newRequestError ctx method url with
  | some err => .error err
  | none => .ok ⟨ctx, method, url, [], data⟩

/-- The statement `req.Header.Set(key, value)`. -/
def HTTPRequest.setHeader (req : HTTPRequest) (key value : String) : HTTPRequest :=
  { req with Header := req.Header.Set key value }

/-- What `MakeRequest` leaves behind: the trace, the result holder and the returned error
(`none` for `nil`). -/
structure Outcome (α β : Type) where
  trace : List (Event α)
  result : β
  err : Option GoError

/-- MakeRequest handles sending HTTP requests (main.go lines 26-50). -/
def MakeRequest {α β : Type} (env : Env α β) (s : Session) (ctx : Context) (url : String)
    (payload : α) (result : β) : Outcome α β :=
  let t0 : List (Event α) := [.makeRequest s url payload]
  match env.jsonMarshal payload with
  | .error err =>
    ⟨t0 ++ [.marshal payload (.error err)], result,
      some (Errorf_w "failed to marshal payload: " err)⟩
  | .ok data =>
    let t1 := t0 ++ [.marshal payload (.ok data)]
    match NewRequestWithContext env ctx "POST" url data with
    | .error err =>
      ⟨t1 ++ [.newRequest "POST" url data (.error err)], result,
        some (Errorf_w "failed to create request: " err)⟩
    | .ok req0 =>
      let t2 := t1 ++ [.newRequest "POST" url data (.ok req0)]
      let req1 := req0.setHeader "Content-Type" "application/json"
      let req := req1.setHeader "Authorization" (Sprintf_s "Bearer " s.APIKey)
      match env.clientDo req with
      | .error err =>
        ⟨t2 ++ [.send req (.error err)], result, some (Errorf_w "request failed: " err)⟩
      | .ok resp =>
        let t3 := t2 ++ [.send req (.ok resp)]
        if resp.StatusCode ≠ StatusOK then
          ⟨t3 ++ [.close], result, some (Errorf_d "non-200 status code: " resp.StatusCode)⟩
        else
          let dec := env.jsonDecode resp.Body result
          ⟨t3 ++ [.decode resp.Body dec.2, .close], dec.1, dec.2⟩

/-- NewClient creates a new moderation client (main.go lines 53-59); the caller stores the
returned object at the address it gets back. -/
def NewClient (session : Ptr) (model : String) : Client :=
  { s := session, model := model, CreateEndpoint := defaultCreateEndpoint }

/-- What `Create` leaves behind: the heap, the trace and the two returned values (`none`
for `nil`). -/
structure CreateOutcome where
  heap : Heap
  trace : List (Event Request)
  response : Option Response
  err : Option GoError

/-- The statement `if p.Model == "" { p.Model = c.model }` (main.go lines 82-84). -/
def defaultModel (h : Heap) (c p : Ptr) : Heap :=
  if (h.requests p).Model = "" then
    { h with requests :=
        Function.update h.requests p { h.requests p with Model := (h.clients c).model } }
  else h

/-- Create (main.go lines 81-91), called as `c.Create(ctx, p)` on heap `h`. -/
def Create (env : Env Request Response) (ctx : Context) (h : Heap) (c p : Ptr) :
    CreateOutcome :=
  let h1 := defaultModel h c p
  let out := MakeRequest env (h1.sessions (h1.clients c).s) ctx (h1.clients c).CreateEndpoint
    (h1.requests p) Response.zero
  match out.err with
  | some err => ⟨h1, out.trace, none, some err⟩
  | none => ⟨h1, out.trace, some out.result, none⟩

/-- The payloads handed to `MakeRequest` in a trace, with the URL each was sent to. -/
def exchanges {α : Type} : List (Event α) → List (String × α)
  | [] => []
  | .makeRequest _ url payload :: t => (url, payload) :: exchanges t
  | _ :: t => exchanges t

/-- The outbound HTTP requests issued in a trace. -/
def sent {α : Type} : List (Event α) → List HTTPRequest
  | [] => []
  | .send req _ :: t => req :: sent t
  | _ :: t => sent t

/-- The bodies handed to the JSON decoder in a trace. -/
def decoded {α : Type} : List (Event α) → List String
  | [] => []
  | .decode body _ :: t => body :: decoded t
  | _ :: t => decoded t

/-! ## encoding/json for the two shapes of the package

`json.Marshal` of a `*Request` and `Decoder.Decode` into a `*Response` are determined by
the struct tags of lines 61-79.  The model below follows `encoding/json`:

* `Decode` reads the first JSON value of the body (white space before it is skipped,
  whatever follows it is left unread) and checks its syntax before the holder is touched;
* object keys are matched to fields by tag, ignoring case; unknown keys are skipped;
* `null` leaves strings, booleans, numbers and structs alone and empties maps and slices;
* a value of the wrong JSON kind leaves its target alone and is remembered as an error;
  decoding goes on and the first remembered error is returned at the end;
* a map that is decoded from an object keeps the entries it had; every member is decoded
  into a zero element that is then stored under the member's key;
* a slice that is decoded from an array reuses the elements it had, by position.

Bodies are Unicode text (`String`), so invalid UTF-8 is outside the model, as is the spare
capacity of slices.  The text of error messages is abridged. -/

/-- A parsed JSON value; numbers are kept as decimals. -/
inductive JSON where
  | null
  | bool (b : Bool)
  | num (x : Float64)
  | str (s : String)
  | arr (elems : List JSON)
  | obj (members : List (String × JSON))

/-- How reading a value from the body can fail: nothing but white space (`io.EOF`), the
text ends inside the value (`io.ErrUnexpectedEOF`), a character that cannot continue the
value (`*json.SyntaxError`). -/
inductive ScanError where
  | eof
  | unexpectedEOF
  | invalid
  deriving DecidableEq, Repr

/-- The Go error for a failed read. -/
def ScanError.toGoError : ScanError → GoError
  | .eof => .lib "EOF"
  | .unexpectedEOF => .lib "unexpected EOF"
  | .invalid => .lib "invalid character"

/-- White space between JSON tokens. -/
def isSpace (c : Char) : Bool :=
  c = ' ' || c = '\t' || c = '\r' || c = '\n'

/-- Drops leading white space. -/
def skipSpace : List Char → List Char
  | [] => []
  | c :: cs => if isSpace c then skipSpace cs else c :: cs

/-- The decimal digits `0` to `9`. -/
def isDigit (c : Char) : Bool :=
  48 ≤ c.toNat && c.toNat ≤ 57

/-- The value of a hexadecimal digit, upper or lower case. -/
def hexVal (c : Char) : Option Nat :=
  if isDigit c then some (c.toNat - 48)
  else if 97 ≤ c.toNat && c.toNat ≤ 102 then some (c.toNat - 87)
  else if 65 ≤ c.toNat && c.toNat ≤ 70 then some (c.toNat - 55)
  else none

/-- Four hexadecimal digits after a backslash and `u`. -/
def hex4 (a b c d : Char) : Option Nat :=
  match hexVal a, hexVal b, hexVal c, hexVal d with
  | some x, some y, some z, some w => some (((x * 16 + y) * 16 + z) * 16 + w)
  | _, _, _, _ => none

/-- The error for an escape `\u` that is cut short: the text ended if all that is left are
hexadecimal digits, otherwise a character is wrong. -/
def shortHex (cs : List Char) : ScanError :=
  if cs.all fun c => (hexVal c).isSome then .unexpectedEOF else .invalid

/-- The character for a single-letter escape. -/
def unescape (c : Char) : Option Char :=
  if c = '"' then some '"'
  else if c = '\\' then some '\\'
  else if c = '/' then some '/'
  else if c = 'b' then some (Char.ofNat 8)
  else if c = 'f' then some (Char.ofNat 12)
  else if c = 'n' then some '\n'
  else if c = 'r' then some '\r'
  else if c = 't' then some '\t'
  else none

/-- The first half of a UTF-16 surrogate pair. -/
def isHighSurrogate (n : Nat) : Bool := 0xD800 ≤ n && n < 0xDC00

/-- The second half of a UTF-16 surrogate pair. -/
def isLowSurrogate (n : Nat) : Bool := 0xDC00 ≤ n && n < 0xE000

/-- The constant `unicode.ReplacementChar`. -/
def replacementChar : Char := Char.ofNat 0xFFFD

/-- The characters read so far once a pending high surrogate turns out to be alone. -/
def flush (pend : Option Nat) (acc : List Char) : List Char :=
  match pend with
  | some _ => replacementChar :: acc
  | none => acc

/-- Reads a string literal after its opening quote; `acc` holds the characters read so
far, last first, and `pend` a high surrogate from a `\u` escape that waits for its
partner.  A surrogate pair of `\u` escapes is one character, a surrogate that is not part
of a pair is U+FFFD. -/
def scanString : List Char → Option Nat → List Char → Except ScanError (String × List Char)
  | [], _, _ => .error .unexpectedEOF
  | c :: cs, pend, acc =>
    if c = '"' then .ok (String.mk (flush pend acc).reverse, cs)
    else if c = '\\' then
      match cs with
      | [] => .error .unexpectedEOF
      | 'u' :: h1 :: h2 :: h3 :: h4 :: rest =>
        match hex4 h1 h2 h3 h4 with
        | none => .error .invalid
        | some n =>
          match pend with
          | some hi =>
            if isLowSurrogate n then
              scanString rest none
                (Char.ofNat (0x10000 + (hi - 0xD800) * 0x400 + (n - 0xDC00)) :: acc)
            else if isHighSurrogate n then scanString rest (some n) (replacementChar :: acc)
            else scanString rest none (Char.ofNat n :: replacementChar :: acc)
          | none =>
            if isHighSurrogate n then scanString rest (some n) acc
            else if isLowSurrogate n then scanString rest none (replacementChar :: acc)
            else scanString rest none (Char.ofNat n :: acc)
      | 'u' :: short => .error (shortHex short)
      | e :: rest =>
        match unescape e with
        | some ch => scanString rest none (ch :: flush pend acc)
        | none => .error .invalid
    else if c.toNat < 0x20 then .error .invalid
    else scanString cs none (c :: flush pend acc)

/-- The value of a string of decimal digits. -/
def digitsToNat (ds : List Char) : Nat :=
  ds.foldl (fun n c => n * 10 + (c.toNat - 48)) 0

/-- The error for a number that stops where a digit is due. -/
def needDigit : List Char → ScanError
  | [] => .unexpectedEOF
  | _ :: _ => .invalid

/-- Reads the exponent part of a number, if there is one: `mant` holds the digits of
the integer and fraction parts, `frac` is the number of fraction digits. -/
def scanExponent (neg : Bool) (mant : List Char) (frac : Nat) (cs : List Char) :
    Except ScanError (Float64 × List Char) :=
  match cs with
  | e :: rest =>
    if e = 'e' || e = 'E' then
      let signed : Bool × List Char :=
        match rest with
        | s :: rest2 => if s = '+' then (false, rest2) else if s = '-' then (true, rest2)
          else (false, rest)
        | [] => (false, rest)
      match signed.2.span isDigit with
      | ([], bad) => .error (needDigit bad)
      | (ds, rest3) =>
        let ex : Int := if signed.1 then -(digitsToNat ds : Int) else (digitsToNat ds : Int)
        .ok (⟨neg, digitsToNat mant, ex - frac⟩, rest3)
    else .ok (⟨neg, digitsToNat mant, -(frac : Int)⟩, cs)
  | [] => .ok (⟨neg, digitsToNat mant, -(frac : Int)⟩, cs)

/-- Reads the fraction part of a number, if there is one, and goes on to the exponent. -/
def scanFraction (neg : Bool) (int : List Char) (cs : List Char) :
    Except ScanError (Float64 × List Char) :=
  match cs with
  | '.' :: rest =>
    match rest.span isDigit with
    | ([], bad) => .error (needDigit bad)
    | (ds, rest2) => scanExponent neg (int ++ ds) ds.length rest2
  | _ => scanExponent neg int 0 cs

/-- Reads a number after its sign: a single `0`, or a digit from 1 to 9 followed by
digits; then the fraction and the exponent. -/
def scanUnsigned (neg : Bool) (cs : List Char) : Except ScanError (Float64 × List Char) :=
  match cs with
  | [] => .error .unexpectedEOF
  | d :: rest =>
    if d = '0' then scanFraction neg [d] rest
    else if isDigit d then
      match rest.span isDigit with
      | (ds, rest2) => scanFraction neg (d :: ds) rest2
    else .error .invalid

/-- Reads a number that starts at the head of `cs`. -/
def scanNumber (cs : List Char) : Except ScanError (Float64 × List Char) :=
  match cs with
  | '-' :: rest => scanUnsigned true rest
  | _ => scanUnsigned false cs

/-- Reads the rest of one of the words `true`, `false`, `null`. -/
def scanWord : List Char → List Char → JSON → Except ScanError (JSON × List Char)
  | [], cs, v => .ok (v, cs)
  | _ :: _, [], _ => .error .unexpectedEOF
  | w :: ws, c :: cs, v => if c = w then scanWord ws cs v else .error .invalid

mutual

/-- Reads one JSON value, white space before it skipped.  `fuel` bounds the depth of the
calls; of two calls in a row at least one consumes a character, so twice the length of
the text plus two is always enough. -/
def scanValue : Nat → List Char → Except ScanError (JSON × List Char)
  | 0, _ => .error .invalid
  | fuel + 1, cs =>
    match skipSpace cs with
    | [] => .error .unexpectedEOF
    | c :: rest =>
      if c = '\x7b' then
        match skipSpace rest with
        | [] => .error .unexpectedEOF
        | d :: rest2 =>
          if d = '\x7d' then .ok (.obj [], rest2) else scanMembers fuel (d :: rest2) []
      else if c = '[' then
        match skipSpace rest with
        | [] => .error .unexpectedEOF
        | d :: rest2 =>
          if d = ']' then .ok (.arr [], rest2) else scanElems fuel (d :: rest2) []
      else if c = '"' then
        match scanString rest none [] with
        | .ok (s, rest2) => .ok (.str s, rest2)
        | .error e => .error e
      else if c = '-' || isDigit c then
        match scanNumber (c :: rest) with
        | .ok (x, rest2) => .ok (.num x, rest2)
        | .error e => .error e
      else if c = 't' then scanWord ['r', 'u', 'e'] rest (.bool true)
      else if c = 'f' then scanWord ['a', 'l', 's', 'e'] rest (.bool false)
      else if c = 'n' then scanWord ['u', 'l', 'l'] rest .null
      else .error .invalid

/-- Reads the elements of an array up to its closing bracket, the first element due at
the head of `cs`; `acc` holds the elements read so far, last first. -/
def scanElems : Nat → List Char → List JSON → Except ScanError (JSON × List Char)
  | 0, _, _ => .error .invalid
  | fuel + 1, cs, acc =>
    match scanValue fuel cs with
    | .error e => .error e
    | .ok (v, rest) =>
      match skipSpace rest with
      | [] => .error .unexpectedEOF
      | c :: rest2 =>
        if c = ',' then scanElems fuel rest2 (v :: acc)
        else if c = ']' then .ok (.arr (v :: acc).reverse, rest2)
        else .error .invalid

/-- Reads the members of an object up to its closing brace, the first key due at the
head of `cs`; `acc` holds the members read so far, last first. -/
def scanMembers : Nat → List Char → List (String × JSON) →
    Except ScanError (JSON × List Char)
  | 0, _, _ => .error .invalid
  | fuel + 1, cs, acc =>
    match skipSpace cs with
    | [] => .error .unexpectedEOF
    | q :: rest =>
      if q = '"' then
        match scanString rest none [] with
        | .error e => .error e
        | .ok (key, rest2) =>
          match skipSpace rest2 with
          | [] => .error .unexpectedEOF
          | colon :: rest3 =>
            if colon = ':' then
              match scanValue fuel rest3 with
              | .error e => .error e
              | .ok (v, rest4) =>
                match skipSpace rest4 with
                | [] => .error .unexpectedEOF
                | c :: rest5 =>
                  if c = ',' then scanMembers fuel rest5 ((key, v) :: acc)
                  else if c = '\x7d' then .ok (.obj ((key, v) :: acc).reverse, rest5)
                  else .error .invalid
            else .error .invalid
      else .error .invalid

end

/-- Reads the first JSON value of a body, as `Decoder.Decode` does before it stores
anything ("Decode reads the next JSON-encoded value from its input"); the text after the
value is not looked at. -/
def readValue (body : String) : Except ScanError JSON :=
  match skipSpace body.data with
  | [] => .error .eof
  | cs =>
    match scanValue (2 * cs.length + 2) cs with
    | .ok (v, _) => .ok v
    | .error e => .error e

/-- Whether a body is a JSON text: one JSON value with nothing but white space before it
and after it. -/
def isJSONText (body : String) : Bool :=
  match skipSpace body.data with
  | [] => false
  | cs =>
    match scanValue (2 * cs.length + 2) cs with
    | .ok (_, rest) => (skipSpace rest).isEmpty
    | .error _ => false

/-- The name of a JSON kind in an `UnmarshalTypeError`. -/
def JSON.kind : JSON → String
  | .null => "null"
  | .bool _ => "bool"
  | .num _ => "number"
  | .str _ => "string"
  | .arr _ => "array"
  | .obj _ => "object"

/-- The error `*json.UnmarshalTypeError` for a JSON value that does not fit a Go type. -/
def UnmarshalTypeError (value typ : String) : GoError :=
  .lib ("json: cannot unmarshal " ++ value ++ " into Go value of type " ++ typ)

/-- The first error is kept (`d.saveError`). -/
def saveError (saved new : Option GoError) : Option GoError :=
  match saved with
  | some e => some e
  | none => new

/-- Whether the decimal rounds to a finite `float64`: its magnitude is below
`2^1024 - 2^970`.  Otherwise `strconv.ParseFloat` reports a range error. -/
def Float64.inRange (x : Float64) : Bool :=
  if 0 ≤ x.exp10 then x.mant * 10 ^ x.exp10.toNat < 2 ^ 1024 - 2 ^ 970
  else x.mant < (2 ^ 1024 - 2 ^ 970) * 10 ^ (-x.exp10).toNat

/-- Case folding of one character of a key, for comparison with a lower-case ASCII tag:
upper-case ASCII letters, and the two other characters that fold to an ASCII letter
(U+017F to `s`, U+212A to `k`). -/
def foldRune (c : Char) : Char :=
  if 65 ≤ c.toNat && c.toNat ≤ 90 then Char.ofNat (c.toNat + 32)
  else if c.toNat = 0x17F then 's'
  else if c.toNat = 0x212A then 'k'
  else c

/-- Whether an object key selects the field with the given (lower-case ASCII) tag. -/
def matchesTag (tag key : String) : Bool :=
  key.data.map foldRune = tag.data

/-- Decodes into a `string`. -/
def storeString (j : JSON) (old : String) : String × Option GoError :=
  match j with
  | .str s => (s, none)
  | .null => (old, none)
  | _ => (old, some (UnmarshalTypeError j.kind "string"))

/-- Decodes into a `bool`. -/
def storeBool (j : JSON) (old : Bool) : Bool × Option GoError :=
  match j with
  | .bool b => (b, none)
  | .null => (old, none)
  | _ => (old, some (UnmarshalTypeError j.kind "bool"))

/-- Decodes into a `float64`. -/
def storeFloat64 (j : JSON) (old : Float64) : Float64 × Option GoError :=
  match j with
  | .num x => if x.inRange then (x, none) else (old, some (UnmarshalTypeError "number" "float64"))
  | .null => (old, none)
  | _ => (old, some (UnmarshalTypeError j.kind "float64"))

/-- Decodes into a `map[string]V` whose elements are decoded by `store` from `zero`. -/
def storeMap {V : Type} (store : JSON → V → V × Option GoError) (zero : V) (typ : String)
    (j : JSON) (old : GoMap V) : GoMap V × Option GoError :=
  match j with
  | .obj members =>
    members.foldl
      (fun st kv => (st.1.insert kv.1 (store kv.2 zero).1, saveError st.2 (store kv.2 zero).2))
      (old, none)
  | .null => ([], none)
  | _ => (old, some (UnmarshalTypeError j.kind typ))

/-- Decodes one member of an object into the field of `Result` its key selects. -/
def storeResultField (st : Result × Option GoError) (kv : String × JSON) :
    Result × Option GoError :=
  if matchesTag "categories" kv.1 then
    let d := storeMap storeBool false "map[string]bool" kv.2 st.1.Categories
    ({ st.1 with Categories := d.1 }, saveError st.2 d.2)
  else if matchesTag "category_scores" kv.1 then
    let d := storeMap storeFloat64 ⟨false, 0, 0⟩ "map[string]float64" kv.2 st.1.CategoryScores
    ({ st.1 with CategoryScores := d.1 }, saveError st.2 d.2)
  else if matchesTag "flagged" kv.1 then
    let d := storeBool kv.2 st.1.Flagged
    ({ st.1 with Flagged := d.1 }, saveError st.2 d.2)
  else st

/-- Decodes into a `Result`. -/
def storeResult (j : JSON) (old : Result) : Result × Option GoError :=
  match j with
  | .obj members => members.foldl storeResultField (old, none)
  | .null => (old, none)
  | _ => (old, some (UnmarshalTypeError j.kind "moderation.Result"))

/-- Decodes the elements of an array into the elements of a slice, by position; where
the slice has no element a zero one is appended. -/
def storeElems : List JSON → List Result → List Result × Option GoError
  | [], _ => ([], none)
  | j :: js, [] =>
    ((storeResult j Result.zero).1 :: (storeElems js []).1,
      saveError (storeResult j Result.zero).2 (storeElems js []).2)
  | j :: js, r :: rs =>
    ((storeResult j r).1 :: (storeElems js rs).1,
      saveError (storeResult j r).2 (storeElems js rs).2)

/-- Decodes into a `[]Result`. -/
def storeResults (j : JSON) (old : List Result) : List Result × Option GoError :=
  match j with
  | .arr elems => storeElems elems old
  | .null => ([], none)
  | _ => (old, some (UnmarshalTypeError j.kind "[]moderation.Result"))

/-- Decodes one member of an object into the field of `Response` its key selects. -/
def storeResponseField (st : Response × Option GoError) (kv : String × JSON) :
    Response × Option GoError :=
  if matchesTag "id" kv.1 then
    let d := storeString kv.2 st.1.ID
    ({ st.1 with ID := d.1 }, saveError st.2 d.2)
  else if matchesTag "model" kv.1 then
    let d := storeString kv.2 st.1.Model
    ({ st.1 with Model := d.1 }, saveError st.2 d.2)
  else if matchesTag "results" kv.1 then
    let d := storeResults kv.2 st.1.Results
    ({ st.1 with Results := d.1 }, saveError st.2 d.2)
  else st

/-- Decodes into a `Response`. -/
def storeResponse (j : JSON) (old : Response) : Response × Option GoError :=
  match j with
  | .obj members => members.foldl storeResponseField (old, none)
  | .null => (old, none)
  | _ => (old, some (UnmarshalTypeError j.kind "moderation.Response"))

/-- The call `json.NewDecoder(body).Decode(&r)` for `r` a `Response`. -/
def decodeResponse (body : String) (r : Response) : Response × Option GoError :=
  match readValue body with
  | .error e => (r, some e.toGoError)
  | .ok j => storeResponse j r

/-- A hexadecimal digit, lower case. -/
def hexDigit (n : Nat) : Char :=
  if n < 10 then Char.ofNat (48 + n) else Char.ofNat (87 + n)

/-- The escape `\u` with four hexadecimal digits. -/
def escapeU (n : Nat) : List Char :=
  ['\\', 'u', hexDigit (n / 4096 % 16), hexDigit (n / 256 % 16), hexDigit (n / 16 % 16),
    hexDigit (n % 16)]

/-- How `json.Marshal` writes one character of a string: quote, backslash and the
control characters with a short form are escaped with a backslash; the other control
characters, the characters `<`, `>`, `&` and the separators U+2028 and U+2029 are
written as `\u` escapes.  (Releases before Go 1.22 write backspace and form feed as `\u`
escapes too; both forms read back as the same character.) -/
def escapeChar (c : Char) : List Char :=
  if c = '"' then ['\\', '"']
  else if c = '\\' then ['\\', '\\']
  else if c.toNat = 8 then ['\\', 'b']
  else if c.toNat = 12 then ['\\', 'f']
  else if c = '\n' then ['\\', 'n']
  else if c = '\r' then ['\\', 'r']
  else if c = '\t' then ['\\', 't']
  else if c.toNat < 0x20 || c = '<' || c = '>' || c = '&' || c.toNat = 0x2028
      || c.toNat = 0x2029 then escapeU c.toNat
  else [c]

/-- How `json.Marshal` writes a string. -/
def quote (s : String) : String :=
  String.mk ('"' :: (s.data.flatMap escapeChar ++ ['"']))

/-- The call `json.Marshal(p)` for `p` a `*Request`: an object with the member `model`
and the member `input`, in the order of the fields; it cannot fail. -/
def marshalRequest (p : Request) : Except GoError String :=
  .ok ("\x7b\"model\":" ++ quote p.Model ++ ",\"input\":" ++ quote p.Input ++ "\x7d")

/-- The environment of `Create` with `encoding/json` as modelled above; the validation of
the URL and the transport stay parameters. -/
def goEnv (newRequestError : Context → String → String → Option GoError)
    (clientDo : HTTPRequest → Except GoError HTTPResponse) : Env Request Response :=
  ⟨marshalRequest, newRequestError, clientDo, decodeResponse⟩

/-- A server that answers every request with the given status code and body. -/
def serverEnv (code : Int) (body : String) : Env Request Response :=
  goEnv (fun _ _ _ => none) (fun _ => .ok ⟨code, body⟩)

/-- An environment whose transport fails before any answer arrives. -/
def offlineEnv : Env Request Response :=
  goEnv (fun _ _ _ => none) (fun _ => .error (.lib "dial tcp: connection refused"))

/-- The body of a successful answer. -/
def wellFormedBody : String :=
  "\x7b\"id\":\"x\",\"model\":\"m\",\"results\":[\x7b\"flagged\":true,\"categories\":\x7b\"hate\":true\x7d,\"category_scores\":\x7b\"hate\":0.97\x7d\x7d]\x7d"

/-- The same body cut short inside its second key. -/
def truncatedBody : String :=
  "\x7b\"id\":\"x\",\"mod"

/-- A complete object followed by one more closing brace. -/
def trailingBody : String :=
  "\x7b\"id\":\"x\"\x7d\x7d"

/-- A body whose `model` is a number: the decoder stores the `id` and reports the
mismatch. -/
def mismatchedBody : String :=
  "\x7b\"id\":\"x\",\"model\":5\x7d"

/-- A heap with client A (default model `a`) at address 0 and client B (default model
`b`) at every other address, both built by `NewClient` on the same session, and one
request. -/
def twoClientHeap (a b : String) (p : Request) : Heap :=
  ⟨fun _ => ⟨"sk-test"⟩, fun q => if q = 0 then NewClient 0 a else NewClient 0 b, fun _ => p⟩

/-- A heap with one session, one client built by `NewClient` and one request, all at
address 0. -/
def sampleHeap (model : String) (p : Request) : Heap :=
  ⟨fun _ => ⟨"sk-test"⟩, fun _ => NewClient 0 model, fun _ => p⟩

/-- Reads the status code back from a message of the form `non-200 status code: <n>`: the
decimal number that follows the first 21 characters. -/
def statusCodeOf (msg : String) : Int :=
  match msg.data.drop 21 with
  | '-' :: ds => -(digitsToNat ds : Int)
  | ds => (digitsToNat ds : Int)

/-! ## Theorems -/

theorem digitChar_val (d : Nat) (h : d < 10) :
    (Nat.digitChar d).toNat - 48 = d ∧ Nat.digitChar d ≠ '-' := by
  interval_cases d <;> decide

theorem foldl_toDigitsCore (fuel n : Nat) (ds : List Char) (h : n < fuel) :
    (Nat.toDigitsCore 10 fuel n ds).foldl (fun a c => a * 10 + (c.toNat - 48)) 0 =
      ds.foldl (fun a c => a * 10 + (c.toNat - 48)) n := by
  induction fuel generalizing n ds with
  | zero => omega
  | succ fuel ih =>
    rw [Nat.toDigitsCore]
    have hd := (digitChar_val (n % 10) (Nat.mod_lt _ (by decide))).1
    by_cases h0 : n / 10 = 0
    · simp only [h0, ↓reduceIte, List.foldl_cons, hd]
      congr 1
      omega
    · simp only [h0, ↓reduceIte]
      rw [ih _ _ (by omega)]
      simp only [List.foldl_cons, hd]
      congr 1
      omega

theorem digitsToNat_toDigits (n : Nat) : digitsToNat (Nat.toDigits 10 n) = n := by
  rw [digitsToNat, Nat.toDigits, foldl_toDigitsCore _ _ _ (by omega)]
  rfl

theorem toDigitsCore_head (fuel n : Nat) (ds : List Char) :
    ∃ d rest, d < 10 ∧ Nat.toDigitsCore 10 (fuel + 1) n ds = Nat.digitChar d :: rest := by
  induction fuel generalizing n ds with
  | zero =>
    refine ⟨n % 10, ds, Nat.mod_lt _ (by decide), ?_⟩
    simp [Nat.toDigitsCore]
  | succ fuel ih =>
    rw [Nat.toDigitsCore]
    by_cases h0 : n / 10 = 0
    · exact ⟨n % 10, ds, Nat.mod_lt _ (by decide), by simp [h0]⟩
    · simp only [h0, ↓reduceIte]
      exact ih _ _

theorem statusCodeOf_fmtD (n : Int) :
    statusCodeOf ("non-200 status code: " ++ fmtD n) = n := by
  have hdrop : ∀ t : String, ("non-200 status code: " ++ t).data.drop 21 = t.data := by
    intro t
    rw [String.data_append]
    exact List.drop_left' rfl
  rw [statusCodeOf, hdrop, fmtD]
  by_cases hneg : n < 0
  · have hdata : ("-" ++ n.natAbs.repr).data = '-' :: Nat.toDigits 10 n.natAbs := rfl
    simp only [hneg, ↓reduceIte, hdata, digitsToNat_toDigits]
    omega
  · have hr : n.toNat.repr.data = Nat.toDigits 10 n.toNat := rfl
    obtain ⟨d, rest, hd, hrest⟩ := toDigitsCore_head n.toNat n.toNat []
    have hne := (digitChar_val d hd).2
    have hdig := digitsToNat_toDigits n.toNat
    simp only [hneg, ↓reduceIte, hr]
    rw [Nat.toDigits] at hdig ⊢
    rw [hrest] at hdig ⊢
    split
    · next heq => simp at heq; exact absurd heq.1 hne
    · rw [hdig]; omega

theorem hexVal_hexDigit (d : Nat) (h : d < 16) : hexVal (hexDigit d) = some d := by
  interval_cases d <;> decide

theorem hex4_escape (n : Nat) (h : n < 65536) :
    hex4 (hexDigit (n / 4096 % 16)) (hexDigit (n / 256 % 16)) (hexDigit (n / 16 % 16))
      (hexDigit (n % 16)) = some n := by
  simp only [hex4, hexVal_hexDigit _ (Nat.mod_lt _ (by decide : 16 > 0))]
  simp only [Option.some.injEq]
  omega

theorem scanString_escapeU (c : Char) (rest acc : List Char) (h : c.toNat < 0xD800) :
    scanString (escapeU c.toNat ++ rest) none acc = scanString rest none (c :: acc) := by
  have h4 := hex4_escape c.toNat (by omega)
  have hh : isHighSurrogate c.toNat = false := by simp [isHighSurrogate]; omega
  have hl : isLowSurrogate c.toNat = false := by simp [isLowSurrogate]; omega
  simp [escapeU, scanString, h4, hh, hl, Char.ofNat_toNat]

theorem char_eq_of_toNat (c : Char) (n : Nat) (h : c.toNat = n) : c = Char.ofNat n := by
  rw [← h, Char.ofNat_toNat]

theorem scanString_escapeChar (c : Char) (rest acc : List Char) :
    scanString (escapeChar c ++ rest) none acc = scanString rest none (c :: acc) := by
  unfold escapeChar
  split
  · next h => subst h; simp [scanString, unescape, flush]
  split
  · next h => subst h; simp [scanString, unescape, flush]
  split
  · next h => rw [char_eq_of_toNat c 8 h]; simp [scanString, unescape, flush]
  split
  · next h => rw [char_eq_of_toNat c 12 h]; simp [scanString, unescape, flush]
  split
  · next h => subst h; simp [scanString, unescape, flush]
  split
  · next h => subst h; simp [scanString, unescape, flush]
  split
  · next h => subst h; simp [scanString, unescape, flush]
  split
  · next h =>
    apply scanString_escapeU
    simp only [Bool.or_eq_true, decide_eq_true_eq] at h
    rcases h with ((((h | h) | h) | h) | h) | h
    · omega
    · subst h; decide
    · subst h; decide
    · subst h; decide
    · omega
    · omega
  · next h1 h2 _ _ _ _ _ h8 =>
    simp only [Bool.or_eq_true, decide_eq_true_eq, not_or, not_lt] at h8
    have h20 : ¬ c.toNat < 32 := by omega
    rw [scanString.eq_def]
    simp [h1, h2, h20, flush]

theorem scanString_escaped (cs rest acc : List Char) :
    scanString (cs.flatMap escapeChar ++ '"' :: rest) none acc =
      .ok (String.mk (acc.reverse ++ cs), rest) := by
  induction cs generalizing acc with
  | nil =>
    rw [List.flatMap_nil, List.nil_append, scanString.eq_def]
    simp [flush]
  | cons c cs ih =>
    rw [List.flatMap_cons, List.append_assoc, scanString_escapeChar, ih]
    simp

theorem scanString_plain (c : Char) (rest acc : List Char) (h1 : c ≠ '"') (h2 : c ≠ '\\')
    (h3 : 32 ≤ c.toNat) :
    scanString (c :: rest) none acc = scanString rest none (c :: acc) := by
  rw [scanString.eq_def]
  have h20 : ¬ c.toNat < 32 := by omega
  simp [h1, h2, h20, flush]

theorem scanString_close (rest acc : List Char) :
    scanString ('"' :: rest) none acc = .ok (String.mk acc.reverse, rest) := by
  rw [scanString.eq_def]
  simp [flush]

theorem scanValue_string (k : Nat) (cs rest : List Char) :
    scanValue (k + 1) ('"' :: (cs.flatMap escapeChar ++ '"' :: rest)) =
      .ok (.str (String.mk cs), rest) := by
  rw [scanValue, skipSpace]
  simp [isSpace, scanString_escaped]

theorem scanValue_request (k : Nat) (m i : List Char) :
    scanValue (k + 4)
      ('\x7b' :: '"' :: 'm' :: 'o' :: 'd' :: 'e' :: 'l' :: '"' :: ':' :: '"' ::
        (m.flatMap escapeChar ++ '"' :: ',' :: '"' :: 'i' :: 'n' :: 'p' :: 'u' :: 't' :: '"' ::
          ':' :: '"' :: (i.flatMap escapeChar ++ '"' :: ['\x7d']))) =
      .ok (.obj [("model", .str (String.mk m)), ("input", .str (String.mk i))], []) := by
  have hm : scanString ('m' :: 'o' :: 'd' :: 'e' :: 'l' :: '"' :: ':' :: '"' ::
        (m.flatMap escapeChar ++ '"' :: ',' :: '"' :: 'i' :: 'n' :: 'p' :: 'u' :: 't' :: '"' ::
          ':' :: '"' :: (i.flatMap escapeChar ++ '"' :: ['\x7d']))) none [] =
      .ok ("model", ':' :: '"' ::
        (m.flatMap escapeChar ++ '"' :: ',' :: '"' :: 'i' :: 'n' :: 'p' :: 'u' :: 't' :: '"' ::
          ':' :: '"' :: (i.flatMap escapeChar ++ '"' :: ['\x7d']))) := by
    repeat rw [scanString_plain _ _ _ (by decide) (by decide) (by decide)]
    rw [scanString_close]
    rfl
  have hi : scanString ('i' :: 'n' :: 'p' :: 'u' :: 't' :: '"' ::
          ':' :: '"' :: (i.flatMap escapeChar ++ '"' :: ['\x7d'])) none [] =
      .ok ("input", ':' :: '"' :: (i.flatMap escapeChar ++ '"' :: ['\x7d'])) := by
    repeat rw [scanString_plain _ _ _ (by decide) (by decide) (by decide)]
    rw [scanString_close]
    rfl
  simp [scanValue, scanMembers, skipSpace, isSpace, hm, hi, scanString_escaped]

theorem readValue_marshalRequest (p : Request) :
    ∃ body, marshalRequest p = .ok body ∧
      readValue body = .ok (.obj [("model", .str p.Model), ("input", .str p.Input)]) := by
  refine ⟨_, rfl, ?_⟩
  have h1 : "\x7b\"model\":".data = ['\x7b', '"', 'm', 'o', 'd', 'e', 'l', '"', ':'] := rfl
  have h2 : ",\"input\":".data = [',', '"', 'i', 'n', 'p', 'u', 't', '"', ':'] := rfl
  have h3 : "\x7d".data = ['\x7d'] := rfl
  have hb : ("\x7b\"model\":" ++ quote p.Model ++ ",\"input\":" ++ quote p.Input ++ "\x7d").data =
      ('\x7b' :: '"' :: 'm' :: 'o' :: 'd' :: 'e' :: 'l' :: '"' :: ':' :: '"' ::
        (p.Model.data.flatMap escapeChar ++ '"' :: ',' :: '"' :: 'i' :: 'n' :: 'p' :: 'u' ::
          't' :: '"' :: ':' :: '"' :: (p.Input.data.flatMap escapeChar ++ '"' :: ['\x7d']))) := by
    simp [String.data_append, quote, h1, h2, h3]
  have hf : ∀ l : List Char, 2 * ('\x7b' :: l).length + 2 = 2 * l.length + 4 := by
    intro l
    simp only [List.length_cons]
    omega
  rw [readValue, hb, skipSpace]
  simp only [isSpace, Char.reduceEq, decide_False, Bool.or_self, Bool.false_eq_true,
    ↓reduceIte, hf, scanValue_request]


theorem Create_trace (env : Env Request Response) (ctx : Context) (h : Heap) (c p : Ptr) :
    (Create env ctx h c p).trace =
      (MakeRequest env ((defaultModel h c p).sessions ((defaultModel h c p).clients c).s) ctx
        ((defaultModel h c p).clients c).CreateEndpoint ((defaultModel h c p).requests p)
        Response.zero).trace := by
  simp only [Create]
  split <;> rfl

theorem Create_err (env : Env Request Response) (ctx : Context) (h : Heap) (c p : Ptr) :
    (Create env ctx h c p).err =
      (MakeRequest env ((defaultModel h c p).sessions ((defaultModel h c p).clients c).s) ctx
        ((defaultModel h c p).clients c).CreateEndpoint ((defaultModel h c p).requests p)
        Response.zero).err := by
  simp only [Create]
  split <;> simp_all

theorem Create_heap (env : Env Request Response) (ctx : Context) (h : Heap) (c p : Ptr) :
    (Create env ctx h c p).heap = defaultModel h c p := by
  simp only [Create]
  split <;> rfl

theorem defaultModel_sessions (h : Heap) (c p : Ptr) :
    (defaultModel h c p).sessions = h.sessions := by
  unfold defaultModel
  split <;> rfl

theorem defaultModel_clients (h : Heap) (c p : Ptr) :
    (defaultModel h c p).clients = h.clients := by
  unfold defaultModel
  split <;> rfl

theorem exchanges_MakeRequest {α β : Type} (env : Env α β) (s : Session) (ctx : Context)
    (url : String) (payload : α) (result : β) :
    exchanges (MakeRequest env s ctx url payload result).trace = [(url, payload)] := by
  simp only [MakeRequest]
  split
  · simp [exchanges]
  · split
    · simp [exchanges]
    · split
      · simp [exchanges]
      · split <;> simp [exchanges]

/-- The request `MakeRequest` builds in lines 32-37 from the serialized payload. -/
theorem setHeader_twice (ctx : Context) (method url data key : String) :
    ((HTTPRequest.mk ctx method url [] data).setHeader "Content-Type" "application/json").setHeader
        "Authorization" (Sprintf_s "Bearer " key) =
      ⟨ctx, method, url,
        [("Content-Type", "application/json"), ("Authorization", "Bearer " ++ key)], data⟩ := by
  simp [HTTPRequest.setHeader, Header.Set, Sprintf_s]

/-- Symbolic execution of `MakeRequest`: the five exits of the function, each with the
condition under which it is taken and the outcome it produces. -/
theorem MakeRequest_cases {α β : Type} (env : Env α β) (s : Session) (ctx : Context)
    (url : String) (payload : α) (result : β) :
    (∃ e, env.jsonMarshal payload = .error e ∧
      MakeRequest env s ctx url payload result =
        ⟨[.makeRequest s url payload, .marshal payload (.error e)], result,
          some (Errorf_w "failed to marshal payload: " e)⟩) ∨
    (∃ data e, env.jsonMarshal payload = .ok data ∧
      env.newRequestError ctx "POST" url = some e ∧
      MakeRequest env s ctx url payload result =
        ⟨[.makeRequest s url payload, .marshal payload (.ok data),
            .newRequest "POST" url data (.error e)], result,
          some (Errorf_w "failed to create request: " e)⟩) ∨
    (∃ data req, env.jsonMarshal payload = .ok data ∧
      env.newRequestError ctx "POST" url = none ∧
      req = ⟨ctx, "POST", url,
        [("Content-Type", "application/json"), ("Authorization", "Bearer " ++ s.APIKey)],
        data⟩ ∧
      ((∃ e, env.clientDo req = .error e ∧
        MakeRequest env s ctx url payload result =
          ⟨[.makeRequest s url payload, .marshal payload (.ok data),
              .newRequest "POST" url data (.ok ⟨ctx, "POST", url, [], data⟩),
              .send req (.error e)], result,
            some (Errorf_w "request failed: " e)⟩) ∨
       (∃ resp, env.clientDo req = .ok resp ∧ resp.StatusCode ≠ 200 ∧
        MakeRequest env s ctx url payload result =
          ⟨[.makeRequest s url payload, .marshal payload (.ok data),
              .newRequest "POST" url data (.ok ⟨ctx, "POST", url, [], data⟩),
              .send req (.ok resp), .close], result,
            some (Errorf_d "non-200 status code: " resp.StatusCode)⟩) ∨
       (∃ resp, env.clientDo req = .ok resp ∧ resp.StatusCode = 200 ∧
        MakeRequest env s ctx url payload result =
          ⟨[.makeRequest s url payload, .marshal payload (.ok data),
              .newRequest "POST" url data (.ok ⟨ctx, "POST", url, [], data⟩),
              .send req (.ok resp),
              .decode resp.Body (env.jsonDecode resp.Body result).2, .close],
            (env.jsonDecode resp.Body result).1, (env.jsonDecode resp.Body result).2⟩))) := by
  cases hm : env.jsonMarshal payload with
  | error e => left; exact ⟨e, rfl, by simp [MakeRequest, hm]⟩
  | ok data =>
    right
    cases hn : env.newRequestError ctx "POST" url with
    | some e =>
      left
      exact ⟨data, e, rfl, rfl, by simp [MakeRequest, hm, NewRequestWithContext, hn]⟩
    | none =>
      right
      refine ⟨data, _, rfl, rfl, rfl, ?_⟩
      cases hd : env.clientDo ⟨ctx, "POST", url,
        [("Content-Type", "application/json"), ("Authorization", "Bearer " ++ s.APIKey)],
        data⟩ with
      | error e =>
        left
        exact ⟨e, rfl, by
          simp [MakeRequest, hm, NewRequestWithContext, hn, setHeader_twice, hd]⟩
      | ok resp =>
        right
        by_cases h200 : resp.StatusCode = 200
        · right
          exact ⟨resp, rfl, h200, by
            simp [MakeRequest, hm, NewRequestWithContext, hn, setHeader_twice, hd, h200,
              StatusOK]⟩
        · left
          exact ⟨resp, rfl, h200, by
            simp [MakeRequest, hm, NewRequestWithContext, hn, setHeader_twice, hd, h200,
              StatusOK]⟩


theorem MakeRequest_makeRequest_mem {α β : Type} (env : Env α β) (s s1 : Session)
    (ctx : Context) (url url1 : String) (payload payload1 : α) (result : β)
    (hmem : Event.makeRequest s1 url1 payload1 ∈
      (MakeRequest env s ctx url payload result).trace) :
    s1 = s ∧ url1 = url ∧ payload1 = payload := by
  rcases MakeRequest_cases env s ctx url payload result with
    ⟨e, _, h⟩ | ⟨data, e, _, _, h⟩ | ⟨data, req, _, _, _, ⟨e, _, h⟩ | ⟨resp, _, _, h⟩ |
      ⟨resp, _, _, h⟩⟩ <;>
  · rw [h] at hmem
    simpa using hmem

theorem MakeRequest_marshal_error {α β : Type} (env : Env α β) (s : Session)
    (ctx : Context) (url : String) (payload payload1 : α) (result : β) (e : GoError)
    (hmem : Event.marshal payload1 (.error e) ∈
      (MakeRequest env s ctx url payload result).trace) :
    (MakeRequest env s ctx url payload result).err =
      some (Errorf_w "failed to marshal payload: " e) := by
  rcases MakeRequest_cases env s ctx url payload result with
    ⟨e1, _, h⟩ | ⟨data, e1, _, _, h⟩ | ⟨data, req, _, _, _, ⟨e1, _, h⟩ | ⟨resp, _, _, h⟩ |
      ⟨resp, _, _, h⟩⟩ <;>
  · rw [h] at hmem ⊢
    simp at hmem ⊢
    try simp [hmem]

theorem MakeRequest_newRequest_error {α β : Type} (env : Env α β) (s : Session)
    (ctx : Context) (url : String) (payload : α) (result : β) (m u b : String) (e : GoError)
    (hmem : Event.newRequest m u b (.error e) ∈
      (MakeRequest env s ctx url payload result).trace) :
    (MakeRequest env s ctx url payload result).err =
      some (Errorf_w "failed to create request: " e) := by
  rcases MakeRequest_cases env s ctx url payload result with
    ⟨e1, _, h⟩ | ⟨data, e1, _, _, h⟩ | ⟨data, req, _, _, _, ⟨e1, _, h⟩ | ⟨resp, _, _, h⟩ |
      ⟨resp, _, _, h⟩⟩ <;>
  · rw [h] at hmem ⊢
    simp at hmem ⊢
    try simp [hmem]

theorem MakeRequest_send_error {α β : Type} (env : Env α β) (s : Session)
    (ctx : Context) (url : String) (payload : α) (result : β) (req : HTTPRequest)
    (e : GoError)
    (hmem : Event.send req (.error e) ∈ (MakeRequest env s ctx url payload result).trace) :
    (MakeRequest env s ctx url payload result).err =
      some (Errorf_w "request failed: " e) := by
  rcases MakeRequest_cases env s ctx url payload result with
    ⟨e1, _, h⟩ | ⟨data, e1, _, _, h⟩ | ⟨data, req1, _, _, _, ⟨e1, _, h⟩ | ⟨resp, _, _, h⟩ |
      ⟨resp, _, _, h⟩⟩ <;>
  · rw [h] at hmem ⊢
    simp at hmem ⊢
    try simp [hmem]

theorem MakeRequest_send_ok {α β : Type} (env : Env α β) (s : Session)
    (ctx : Context) (url : String) (payload : α) (result : β) (req : HTTPRequest)
    (resp : HTTPResponse)
    (hmem : Event.send req (.ok resp) ∈ (MakeRequest env s ctx url payload result).trace) :
    (resp.StatusCode ≠ 200 →
      (MakeRequest env s ctx url payload result).err =
          some (Errorf_d "non-200 status code: " resp.StatusCode) ∧
        (MakeRequest env s ctx url payload result).result = result ∧
        decoded (MakeRequest env s ctx url payload result).trace = []) ∧
    (resp.StatusCode = 200 →
      (MakeRequest env s ctx url payload result).err = (env.jsonDecode resp.Body result).2 ∧
        (MakeRequest env s ctx url payload result).result =
          (env.jsonDecode resp.Body result).1 ∧
        decoded (MakeRequest env s ctx url payload result).trace = [resp.Body]) := by
  rcases MakeRequest_cases env s ctx url payload result with
    ⟨e1, _, h⟩ | ⟨data, e1, _, _, h⟩ | ⟨data, req1, _, _, _, ⟨e1, _, h⟩ | ⟨resp1, _, hc, h⟩ |
      ⟨resp1, _, hc, h⟩⟩ <;>
  · rw [h] at hmem ⊢
    simp at hmem ⊢
    try (obtain ⟨_, rfl⟩ := hmem; simp [hc, decoded])

theorem MakeRequest_decode_mem {α β : Type} (env : Env α β) (s : Session)
    (ctx : Context) (url : String) (payload : α) (result : β) (body : String)
    (err : Option GoError)
    (hmem : Event.decode body err ∈ (MakeRequest env s ctx url payload result).trace) :
    (MakeRequest env s ctx url payload result).err = err := by
  rcases MakeRequest_cases env s ctx url payload result with
    ⟨e1, _, h⟩ | ⟨data, e1, _, _, h⟩ | ⟨data, req1, _, _, _, ⟨e1, _, h⟩ | ⟨resp1, _, hc, h⟩ |
      ⟨resp1, _, hc, h⟩⟩ <;>
  · rw [h] at hmem ⊢
    simp at hmem ⊢
    try simp [hmem]

theorem Create_response_of_err (env : Env Request Response) (ctx : Context) (h : Heap)
    (c p : Ptr) (e : GoError) (he : (Create env ctx h c p).err = some e) :
    (Create env ctx h c p).response = none := by
  simp only [Create] at he ⊢
  split <;> simp_all

theorem Create_response_of_ok (env : Env Request Response) (ctx : Context) (h : Heap)
    (c p : Ptr) (he : (Create env ctx h c p).err = none) :
    (Create env ctx h c p).response =
      some (MakeRequest env ((defaultModel h c p).sessions ((defaultModel h c p).clients c).s)
        ctx ((defaultModel h c p).clients c).CreateEndpoint ((defaultModel h c p).requests p)
        Response.zero).result := by
  simp only [Create] at he ⊢
  split <;> simp_all

theorem sent_MakeRequest_of_ok {α β : Type} (env : Env α β) (s : Session) (ctx : Context)
    (url : String) (payload : α) (result : β) (data : String)
    (hm : env.jsonMarshal payload = .ok data)
    (hn : env.newRequestError ctx "POST" url = none) :
    sent (MakeRequest env s ctx url payload result).trace =
      [⟨ctx, "POST", url,
        [("Content-Type", "application/json"), ("Authorization", "Bearer " ++ s.APIKey)],
        data⟩] := by
  rcases MakeRequest_cases env s ctx url payload result with
    ⟨e, hm1, h⟩ | ⟨d1, e, hm1, hn1, h⟩ | ⟨d1, req1, hm1, hn1, hreq1, ⟨e, _, h⟩ |
      ⟨resp, _, _, h⟩ | ⟨resp, _, _, h⟩⟩
  · rw [hm] at hm1; cases hm1
  · rw [hn] at hn1; cases hn1
  all_goals
    rw [hm] at hm1
    cases hm1
    rw [h, hreq1]
    simp [sent]

theorem marshal_mem_MakeRequest {α β : Type} (env : Env α β) (s : Session) (ctx : Context)
    (url : String) (payload : α) (result : β) :
    Event.marshal payload (env.jsonMarshal payload) ∈
      (MakeRequest env s ctx url payload result).trace := by
  rcases MakeRequest_cases env s ctx url payload result with
    ⟨e, hm, h⟩ | ⟨data, e, hm, _, h⟩ | ⟨data, req, hm, _, _, ⟨e, _, h⟩ | ⟨resp, _, _, h⟩ |
      ⟨resp, _, _, h⟩⟩ <;>
  · rw [h, hm]
    simp

theorem defaultModel_requests (h : Heap) (c p : Ptr) :
    (defaultModel h c p).requests p =
      ⟨if (h.requests p).Model = "" then (h.clients c).model else (h.requests p).Model,
        (h.requests p).Input⟩ := by
  unfold defaultModel
  split <;> simp_all

/-- C1: for a client built by `NewClient(session, m)`, whatever `CreateEndpoint` holds by
now, a request with empty Model is sent with model `m` and a request with non-empty Model
is sent with its own; the Input is sent as it is.  The payload is the one `MakeRequest` is
entered with and the one `json.Marshal` gets. -/
theorem create_payload_model (env : Env Request Response) (ctx : Context) (h : Heap)
    (c p session : Ptr) (m u : String)
    (hc : h.clients c = { NewClient session m with CreateEndpoint := u }) :
    ∃ payload : Request,
      (exchanges (Create env ctx h c p).trace).map Prod.snd = [payload] ∧
      Event.marshal payload (env.jsonMarshal payload) ∈ (Create env ctx h c p).trace ∧
      ((h.requests p).Model = "" → payload.Model = m) ∧
      ((h.requests p).Model ≠ "" → payload.Model = (h.requests p).Model) ∧
      payload.Input = (h.requests p).Input := by
  refine ⟨(defaultModel h c p).requests p, ?_, ?_, ?_, ?_, ?_⟩
  · rw [Create_trace, exchanges_MakeRequest]
    rfl
  · rw [Create_trace]
    rcases MakeRequest_cases env ((defaultModel h c p).sessions ((defaultModel h c p).clients c).s)
      ctx ((defaultModel h c p).clients c).CreateEndpoint ((defaultModel h c p).requests p)
      Response.zero with
      ⟨e, hm, h⟩ | ⟨data, e, hm, _, h⟩ | ⟨data, req, hm, _, _, ⟨e, _, h⟩ | ⟨resp, _, _, h⟩ |
        ⟨resp, _, _, h⟩⟩ <;>
    · rw [h, hm]
      simp
  · intro hm
    rw [defaultModel_requests, hc]
    simp [hm, NewClient]
  · intro hm
    rw [defaultModel_requests]
    simp [hm]
  · rw [defaultModel_requests]

theorem create_payload_model_witness :
    (sampleHeap "text-moderation-latest" ⟨"", "hello"⟩).clients 0 =
        { NewClient 0 "text-moderation-latest" with
          CreateEndpoint := "https://api.openai.com/v1/moderations" } ∧
    ∃ payload : Request,
      (exchanges (Create (serverEnv 200 wellFormedBody) ⟨0⟩
        (sampleHeap "text-moderation-latest" ⟨"", "hello"⟩) 0 0).trace).map Prod.snd =
          [payload] ∧
      Event.marshal payload ((serverEnv 200 wellFormedBody).jsonMarshal payload) ∈
        (Create (serverEnv 200 wellFormedBody) ⟨0⟩
          (sampleHeap "text-moderation-latest" ⟨"", "hello"⟩) 0 0).trace ∧
      (((sampleHeap "text-moderation-latest" ⟨"", "hello"⟩).requests 0).Model = "" →
        payload.Model = "text-moderation-latest") ∧
      (((sampleHeap "text-moderation-latest" ⟨"", "hello"⟩).requests 0).Model ≠ "" →
        payload.Model = ((sampleHeap "text-moderation-latest" ⟨"", "hello"⟩).requests 0).Model) ∧
      payload.Input = ((sampleHeap "text-moderation-latest" ⟨"", "hello"⟩).requests 0).Input :=
  ⟨rfl, create_payload_model (serverEnv 200 wellFormedBody) ⟨0⟩
    (sampleHeap "text-moderation-latest" ⟨"", "hello"⟩) 0 0 0 "text-moderation-latest"
    "https://api.openai.com/v1/moderations" rfl⟩

/-- C2: when the server answers with a status code other than 200, whatever the body,
`Create` returns no Response and an error, the body is not handed to the decoder, and the
message of the error is `non-200 status code: ` followed by the code in decimal. -/
theorem create_non200 (env : Env Request Response) (ctx : Context) (h : Heap) (c p : Ptr)
    (req : HTTPRequest) (resp : HTTPResponse)
    (hsend : Event.send req (.ok resp) ∈ (Create env ctx h c p).trace)
    (hcode : resp.StatusCode ≠ 200) :
    (Create env ctx h c p).response = none ∧
    decoded (Create env ctx h c p).trace = [] ∧
    ∃ e, (Create env ctx h c p).err = some e ∧
      e.Error = "non-200 status code: " ++ fmtD resp.StatusCode ∧
      (∃ pre post, e.Error = pre ++ fmtD resp.StatusCode ++ post) ∧
      statusCodeOf e.Error = resp.StatusCode := by
  rw [Create_trace] at hsend
  have hs := (MakeRequest_send_ok env _ ctx _ _ _ req resp hsend).1 hcode
  have he : (Create env ctx h c p).err =
      some (Errorf_d "non-200 status code: " resp.StatusCode) := by
    rw [Create_err]; exact hs.1
  refine ⟨Create_response_of_err env ctx h c p _ he, ?_, _, he, rfl, ?_, ?_⟩
  · rw [Create_trace]; exact hs.2.2
  · exact ⟨"non-200 status code: ", "", by simp [Errorf_d, GoError.Error]⟩
  · exact statusCodeOf_fmtD resp.StatusCode

theorem create_non200_witness :
    Event.send ⟨⟨0⟩, "POST", "https://api.openai.com/v1/moderations",
        [("Content-Type", "application/json"), ("Authorization", "Bearer sk-test")],
        "\x7b\"model\":\"text-moderation-latest\",\"input\":\"hello\"\x7d"⟩
      (.ok ⟨429, wellFormedBody⟩) ∈
      (Create (serverEnv 429 wellFormedBody) ⟨0⟩
        (sampleHeap "text-moderation-latest" ⟨"", "hello"⟩) 0 0).trace ∧
    (429 : Int) ≠ 200 ∧
    (Create (serverEnv 429 wellFormedBody) ⟨0⟩
      (sampleHeap "text-moderation-latest" ⟨"", "hello"⟩) 0 0).response = none ∧
    decoded (Create (serverEnv 429 wellFormedBody) ⟨0⟩
      (sampleHeap "text-moderation-latest" ⟨"", "hello"⟩) 0 0).trace = [] :=
  have hsend : Event.send ⟨⟨0⟩, "POST", "https://api.openai.com/v1/moderations",
        [("Content-Type", "application/json"), ("Authorization", "Bearer sk-test")],
        "\x7b\"model\":\"text-moderation-latest\",\"input\":\"hello\"\x7d"⟩
      (.ok ⟨429, wellFormedBody⟩) ∈
      (Create (serverEnv 429 wellFormedBody) ⟨0⟩
        (sampleHeap "text-moderation-latest" ⟨"", "hello"⟩) 0 0).trace := by
    rw [Create_trace]
    simp [MakeRequest, NewRequestWithContext, serverEnv, goEnv, marshalRequest, sampleHeap,
      defaultModel, NewClient, defaultCreateEndpoint, HTTPRequest.setHeader, Header.Set,
      Sprintf_s, StatusOK, quote, escapeChar]
  have h := create_non200 (serverEnv 429 wellFormedBody) ⟨0⟩
    (sampleHeap "text-moderation-latest" ⟨"", "hello"⟩) 0 0 _ ⟨429, wellFormedBody⟩ hsend
    (by decide)
  ⟨hsend, by decide, h.1, h.2.1⟩

/-- C3: when the server answers 200 and the decoder fills an empty Response from the
body without an error, `Create` returns that Response and no error; with the decoder of
`encoding/json` and the body of the specification the Response has ID `x`, Model `m` and
one Result, which is flagged, has category `hate` set and score 0.97 (97e-2) for it. -/
theorem create_ok_decodes (env : Env Request Response) (ctx : Context) (h : Heap)
    (c p : Ptr) (req : HTTPRequest) (resp : HTTPResponse) (r : Response)
    (hsend : Event.send req (.ok resp) ∈ (Create env ctx h c p).trace)
    (hcode : resp.StatusCode = 200)
    (hdec : env.jsonDecode resp.Body Response.zero = (r, none)) :
    (Create env ctx h c p).err = none ∧
    (Create env ctx h c p).response = some r ∧
    (env.jsonDecode = decodeResponse → resp.Body = wellFormedBody →
      r.ID = "x" ∧ r.Model = "m" ∧ r.Results.length = 1 ∧
      ∃ r0, r.Results[0]? = some r0 ∧ r0.Flagged = true ∧
        GoMap.index false r0.Categories "hate" = true ∧
        GoMap.index ⟨false, 0, 0⟩ r0.CategoryScores "hate" = ⟨false, 97, -2⟩) := by
  rw [Create_trace] at hsend
  have hs := (MakeRequest_send_ok env _ ctx _ _ _ req resp hsend).2 hcode
  have he : (Create env ctx h c p).err = none := by
    rw [Create_err, hs.1, hdec]
  refine ⟨he, ?_, ?_⟩
  · rw [Create_response_of_ok env ctx h c p he, hs.2.1, hdec]
  · intro hj hb
    rw [hj, hb] at hdec
    have hr : r = ⟨"x", "m", [⟨[("hate", true)], [("hate", ⟨false, 97, -2⟩)], true⟩]⟩ := by
      have h1 : decodeResponse wellFormedBody Response.zero =
          (⟨"x", "m", [⟨[("hate", true)], [("hate", ⟨false, 97, -2⟩)], true⟩]⟩, none) := by
        decide!
      rw [h1] at hdec
      exact (Prod.mk.inj hdec).1.symm
    subst hr
    refine ⟨rfl, rfl, rfl, _, rfl, rfl, ?_, ?_⟩ <;> decide

theorem create_ok_decodes_witness :
    Event.send ⟨⟨0⟩, "POST", "https://api.openai.com/v1/moderations",
        [("Content-Type", "application/json"), ("Authorization", "Bearer sk-test")],
        "\x7b\"model\":\"text-moderation-latest\",\"input\":\"hello\"\x7d"⟩
      (.ok ⟨200, wellFormedBody⟩) ∈
      (Create (serverEnv 200 wellFormedBody) ⟨0⟩
        (sampleHeap "text-moderation-latest" ⟨"", "hello"⟩) 0 0).trace ∧
    (200 : Int) = 200 ∧
    (serverEnv 200 wellFormedBody).jsonDecode wellFormedBody Response.zero =
      (⟨"x", "m", [⟨[("hate", true)], [("hate", ⟨false, 97, -2⟩)], true⟩]⟩, none) ∧
    (Create (serverEnv 200 wellFormedBody) ⟨0⟩
      (sampleHeap "text-moderation-latest" ⟨"", "hello"⟩) 0 0).response =
      some ⟨"x", "m", [⟨[("hate", true)], [("hate", ⟨false, 97, -2⟩)], true⟩]⟩ ∧
    (Create (serverEnv 200 wellFormedBody) ⟨0⟩
      (sampleHeap "text-moderation-latest" ⟨"", "hello"⟩) 0 0).err = none :=
  have hsend : Event.send ⟨⟨0⟩, "POST", "https://api.openai.com/v1/moderations",
        [("Content-Type", "application/json"), ("Authorization", "Bearer sk-test")],
        "\x7b\"model\":\"text-moderation-latest\",\"input\":\"hello\"\x7d"⟩
      (.ok ⟨200, wellFormedBody⟩) ∈
      (Create (serverEnv 200 wellFormedBody) ⟨0⟩
        (sampleHeap "text-moderation-latest" ⟨"", "hello"⟩) 0 0).trace := by
    rw [Create_trace]
    simp [MakeRequest, NewRequestWithContext, serverEnv, goEnv, marshalRequest, sampleHeap,
      defaultModel, NewClient, defaultCreateEndpoint, HTTPRequest.setHeader, Header.Set,
      Sprintf_s, StatusOK, quote, escapeChar]
  have hdec : (serverEnv 200 wellFormedBody).jsonDecode wellFormedBody Response.zero =
      (⟨"x", "m", [⟨[("hate", true)], [("hate", ⟨false, 97, -2⟩)], true⟩]⟩, none) := by
    decide!
  have h := create_ok_decodes (serverEnv 200 wellFormedBody) ⟨0⟩
    (sampleHeap "text-moderation-latest" ⟨"", "hello"⟩) 0 0 _ ⟨200, wellFormedBody⟩ _
    hsend rfl hdec
  ⟨hsend, rfl, hdec, h.2.1, h.1⟩

/-- C4, as the code has it: `Create` returns a Response exactly when it returns no error;
when the decoder reports an error for the body of a 200 answer, whatever it has stored in
the holder by then, `Create` returns no Response and that error; with the decoder of
`encoding/json` this is so whenever the first JSON value of the body is malformed or cut
short. -/
theorem create_response_iff_no_error (env : Env Request Response) (ctx : Context)
    (h : Heap) (c p : Ptr) :
    ((Create env ctx h c p).response ≠ none ↔ (Create env ctx h c p).err = none) ∧
    (∀ (body : String) (e : GoError),
      Event.decode body (some e) ∈ (Create env ctx h c p).trace →
      (Create env ctx h c p).response = none ∧ (Create env ctx h c p).err = some e) ∧
    (∀ (req : HTTPRequest) (resp : HTTPResponse) (e : ScanError),
      env.jsonDecode = decodeResponse →
      Event.send req (.ok resp) ∈ (Create env ctx h c p).trace →
      resp.StatusCode = 200 → readValue resp.Body = .error e →
      (Create env ctx h c p).response = none ∧
        (Create env ctx h c p).err = some e.toGoError) := by
  refine ⟨?_, ?_, ?_⟩
  · cases he : (Create env ctx h c p).err with
    | none => simp [Create_response_of_ok env ctx h c p he]
    | some e => simp [Create_response_of_err env ctx h c p e he]
  · intro body e hmem
    rw [Create_trace] at hmem
    have he : (Create env ctx h c p).err = some e := by
      rw [Create_err]
      exact MakeRequest_decode_mem env _ ctx _ _ _ body (some e) hmem
    exact ⟨Create_response_of_err env ctx h c p e he, he⟩
  · intro req resp e hj hsend hcode hread
    rw [Create_trace] at hsend
    have hs := (MakeRequest_send_ok env _ ctx _ _ _ req resp hsend).2 hcode
    have he : (Create env ctx h c p).err = some e.toGoError := by
      rw [Create_err, hs.1, hj]
      simp [decodeResponse, hread]
    exact ⟨Create_response_of_err env ctx h c p _ he, he⟩

theorem create_response_iff_no_error_witness :
    decodeResponse mismatchedBody Response.zero =
      (⟨"x", "", []⟩,
        some (.lib "json: cannot unmarshal number into Go value of type string")) ∧
    Event.decode mismatchedBody
        (some (.lib "json: cannot unmarshal number into Go value of type string")) ∈
      (Create (serverEnv 200 mismatchedBody) ⟨0⟩
        (sampleHeap "text-moderation-latest" ⟨"", "hello"⟩) 0 0).trace ∧
    (Create (serverEnv 200 mismatchedBody) ⟨0⟩
      (sampleHeap "text-moderation-latest" ⟨"", "hello"⟩) 0 0).response = none ∧
    (Create (serverEnv 200 mismatchedBody) ⟨0⟩
      (sampleHeap "text-moderation-latest" ⟨"", "hello"⟩) 0 0).err =
        some (.lib "json: cannot unmarshal number into Go value of type string") :=
  have hdec : decodeResponse mismatchedBody Response.zero =
      (⟨"x", "", []⟩,
        some (.lib "json: cannot unmarshal number into Go value of type string")) := by
    decide!
  have hmem : Event.decode mismatchedBody
        (some (.lib "json: cannot unmarshal number into Go value of type string")) ∈
      (Create (serverEnv 200 mismatchedBody) ⟨0⟩
        (sampleHeap "text-moderation-latest" ⟨"", "hello"⟩) 0 0).trace := by
    rw [Create_trace]
    simp [MakeRequest, NewRequestWithContext, serverEnv, goEnv, marshalRequest, StatusOK,
      hdec]
  ⟨hdec, hmem, (create_response_iff_no_error (serverEnv 200 mismatchedBody) ⟨0⟩
    (sampleHeap "text-moderation-latest" ⟨"", "hello"⟩) 0 0).2.1 _ _ hmem⟩

/-- C4 as stated fails: a 200 answer whose body is a complete object followed by one more
closing brace is not a JSON text, and `Create` returns a Response and no error for it,
because the decoder stops reading after the first value. -/
theorem create_accepts_trailing_text :
    isJSONText trailingBody = false ∧
    (Create (serverEnv 200 trailingBody) ⟨0⟩
      (sampleHeap "text-moderation-latest" ⟨"", "hello"⟩) 0 0).response =
        some ⟨"x", "", []⟩ ∧
    (Create (serverEnv 200 trailingBody) ⟨0⟩
      (sampleHeap "text-moderation-latest" ⟨"", "hello"⟩) 0 0).err = none := by
  have hdec : decodeResponse trailingBody Response.zero = (⟨"x", "", []⟩, none) := by
    decide!
  refine ⟨by decide!, ?_, ?_⟩ <;>
  simp [Create, MakeRequest, NewRequestWithContext, serverEnv, goEnv, marshalRequest,
    StatusOK, hdec]

/-- C6: when the call of `MakeRequest` that `Create` makes returns the error `e`, `Create`
returns `e` itself and no Response, and `MakeRequest` is entered once. -/
theorem create_propagates_error (env : Env Request Response) (ctx : Context) (h : Heap)
    (c p : Ptr) (s : Session) (url : String) (payload : Request) (e : GoError)
    (hcall : Event.makeRequest s url payload ∈ (Create env ctx h c p).trace)
    (herr : (MakeRequest env s ctx url payload Response.zero).err = some e) :
    (Create env ctx h c p).err = some e ∧
    (Create env ctx h c p).response = none ∧
    exchanges (Create env ctx h c p).trace = [(url, payload)] := by
  rw [Create_trace] at hcall
  obtain ⟨hs, hu, hp⟩ := MakeRequest_makeRequest_mem env _ s ctx _ url _ payload _ hcall
  have he : (Create env ctx h c p).err = some e := by
    rw [Create_err, ← hs, ← hu, ← hp]
    exact herr
  refine ⟨he, Create_response_of_err env ctx h c p e he, ?_⟩
  rw [Create_trace, exchanges_MakeRequest, ← hu, ← hp]

theorem create_propagates_error_witness :
    Event.makeRequest ⟨"sk-test"⟩ "https://api.openai.com/v1/moderations"
        ⟨"text-moderation-latest", "hello"⟩ ∈
      (Create (serverEnv 429 "") ⟨0⟩
        (sampleHeap "text-moderation-latest" ⟨"", "hello"⟩) 0 0).trace ∧
    (MakeRequest (serverEnv 429 "") ⟨"sk-test"⟩ ⟨0⟩ "https://api.openai.com/v1/moderations"
        ⟨"text-moderation-latest", "hello"⟩ Response.zero).err =
      some (.errorString "non-200 status code: 429") ∧
    (Create (serverEnv 429 "") ⟨0⟩
      (sampleHeap "text-moderation-latest" ⟨"", "hello"⟩) 0 0).err =
        some (.errorString "non-200 status code: 429") :=
  have hcall : Event.makeRequest ⟨"sk-test"⟩ "https://api.openai.com/v1/moderations"
        ⟨"text-moderation-latest", "hello"⟩ ∈
      (Create (serverEnv 429 "") ⟨0⟩
        (sampleHeap "text-moderation-latest" ⟨"", "hello"⟩) 0 0).trace := by
    rw [Create_trace]
    simp [MakeRequest, NewRequestWithContext, serverEnv, goEnv, marshalRequest, StatusOK,
      sampleHeap, defaultModel, NewClient, defaultCreateEndpoint]
  have herr : (MakeRequest (serverEnv 429 "") ⟨"sk-test"⟩ ⟨0⟩
        "https://api.openai.com/v1/moderations"
        ⟨"text-moderation-latest", "hello"⟩ Response.zero).err =
      some (.errorString "non-200 status code: 429") := by
    simp [MakeRequest, NewRequestWithContext, serverEnv, goEnv, marshalRequest, StatusOK,
      Errorf_d]
    decide
  ⟨hcall, herr, (create_propagates_error (serverEnv 429 "") ⟨0⟩
    (sampleHeap "text-moderation-latest" ⟨"", "hello"⟩) 0 0 _ _ _ _ hcall herr).1⟩

/-- C8: `NewClient` sets `CreateEndpoint` to the default constant; `Create` enters
`MakeRequest` with the value `CreateEndpoint` holds when it is called, and when the payload
is serialized and the request constructed it sends exactly one request, to that URL; so
after the caller has stored `u` in `CreateEndpoint` the one request goes to `u`, and not to
the default when `u` differs from it. -/
theorem create_uses_endpoint (session : Ptr) (model : String) :
    (NewClient session model).CreateEndpoint = "https://api.openai.com/v1/moderations" ∧
    (∀ (env : Env Request Response) (ctx : Context) (h : Heap) (c p : Ptr),
      (exchanges (Create env ctx h c p).trace).map Prod.fst = [(h.clients c).CreateEndpoint] ∧
      (∀ req ∈ sent (Create env ctx h c p).trace, req.URL = (h.clients c).CreateEndpoint) ∧
      ∀ data : String,
        env.jsonMarshal ((defaultModel h c p).requests p) = .ok data →
        env.newRequestError ctx "POST" (h.clients c).CreateEndpoint = none →
        ∃ req, sent (Create env ctx h c p).trace = [req] ∧ req.Method = "POST" ∧
          req.URL = (h.clients c).CreateEndpoint ∧ req.Body = data) ∧
    (∀ (env : Env Request Response) (ctx : Context) (h : Heap) (c p : Ptr) (u : String),
      (exchanges (Create env ctx
          { h with clients :=
              Function.update h.clients c { h.clients c with CreateEndpoint := u } }
          c p).trace).map Prod.fst = [u] ∧
      (∀ req ∈ sent (Create env ctx
          { h with clients :=
              Function.update h.clients c { h.clients c with CreateEndpoint := u } }
          c p).trace, req.URL = u) ∧
      (u ≠ defaultCreateEndpoint →
        defaultCreateEndpoint ∉ (exchanges (Create env ctx
          { h with clients :=
              Function.update h.clients c { h.clients c with CreateEndpoint := u } }
          c p).trace).map Prod.fst) ∧
      ∀ data : String,
        env.jsonMarshal ((defaultModel h c p).requests p) = .ok data →
        env.newRequestError ctx "POST" u = none →
        ∃ req, sent (Create env ctx
            { h with clients :=
                Function.update h.clients c { h.clients c with CreateEndpoint := u } }
            c p).trace = [req] ∧ req.Method = "POST" ∧ req.URL = u ∧ req.Body = data ∧
          (u ≠ defaultCreateEndpoint → req.URL ≠ defaultCreateEndpoint)) := by
  have key : ∀ (env : Env Request Response) (ctx : Context) (h : Heap) (c p : Ptr),
      (exchanges (Create env ctx h c p).trace).map Prod.fst = [(h.clients c).CreateEndpoint] ∧
      (∀ req ∈ sent (Create env ctx h c p).trace, req.URL = (h.clients c).CreateEndpoint) ∧
      ∀ data : String,
        env.jsonMarshal ((defaultModel h c p).requests p) = .ok data →
        env.newRequestError ctx "POST" (h.clients c).CreateEndpoint = none →
        ∃ req, sent (Create env ctx h c p).trace = [req] ∧ req.Method = "POST" ∧
          req.URL = (h.clients c).CreateEndpoint ∧ req.Body = data := by
    intro env ctx h c p
    rw [Create_trace, exchanges_MakeRequest, defaultModel_clients]
    refine ⟨rfl, ?_, ?_⟩
    · intro req hreq
      rcases MakeRequest_cases env ((defaultModel h c p).sessions (h.clients c).s)
        ctx (h.clients c).CreateEndpoint ((defaultModel h c p).requests p)
        Response.zero with
        ⟨e, _, h1⟩ | ⟨data, e, _, _, h1⟩ | ⟨data, req1, _, _, hreq1, ⟨e, _, h1⟩ |
          ⟨resp, _, _, h1⟩ | ⟨resp, _, _, h1⟩⟩ <;>
      · rw [h1] at hreq
        simp [sent] at hreq
        try (rw [hreq, hreq1])
    · intro data hm hn
      exact ⟨_, sent_MakeRequest_of_ok env _ ctx _ _ _ data hm hn, rfl, rfl, rfl⟩
  refine ⟨rfl, key, ?_⟩
  intro env ctx h c p u
  have k := key env ctx
    { h with clients := Function.update h.clients c { h.clients c with CreateEndpoint := u } }
    c p
  simp only [Function.update_same] at k
  have hreq : (defaultModel
      { h with clients := Function.update h.clients c { h.clients c with CreateEndpoint := u } }
      c p).requests p = (defaultModel h c p).requests p := by
    rw [defaultModel_requests, defaultModel_requests]
    simp
  rw [hreq] at k
  refine ⟨k.1, k.2.1, ?_, ?_⟩
  · intro hu
    rw [k.1]
    simpa using fun hh => hu hh.symm
  · intro data hm hn
    obtain ⟨req, hs, hmeth, hurl, hbody⟩ := k.2.2 data hm hn
    exact ⟨req, hs, hmeth, hurl, hbody, fun hu => by rw [hurl]; exact hu⟩

theorem create_uses_endpoint_witness :
    (serverEnv 200 wellFormedBody).jsonMarshal
        ((defaultModel (sampleHeap "text-moderation-latest" ⟨"", "hello"⟩) 0 0).requests 0) =
      .ok "\x7b\"model\":\"text-moderation-latest\",\"input\":\"hello\"\x7d" ∧
    (serverEnv 200 wellFormedBody).newRequestError ⟨0⟩ "POST"
        "http://127.0.0.1:8080/v1/moderations" = none ∧
    "http://127.0.0.1:8080/v1/moderations" ≠ defaultCreateEndpoint ∧
    ∃ req, sent (Create (serverEnv 200 wellFormedBody) ⟨0⟩
        { sampleHeap "text-moderation-latest" ⟨"", "hello"⟩ with
          clients := Function.update
            (sampleHeap "text-moderation-latest" ⟨"", "hello"⟩).clients 0
            { (sampleHeap "text-moderation-latest" ⟨"", "hello"⟩).clients 0 with
              CreateEndpoint := "http://127.0.0.1:8080/v1/moderations" } }
        0 0).trace = [req] ∧
      req.Method = "POST" ∧ req.URL = "http://127.0.0.1:8080/v1/moderations" ∧
      req.Body = "\x7b\"model\":\"text-moderation-latest\",\"input\":\"hello\"\x7d" ∧
      req.URL ≠ defaultCreateEndpoint :=
  have hm : (serverEnv 200 wellFormedBody).jsonMarshal
        ((defaultModel (sampleHeap "text-moderation-latest" ⟨"", "hello"⟩) 0 0).requests 0) =
      .ok "\x7b\"model\":\"text-moderation-latest\",\"input\":\"hello\"\x7d" := by
    simp [serverEnv, goEnv, marshalRequest, defaultModel, sampleHeap, NewClient, quote,
      escapeChar]
  have hu : "http://127.0.0.1:8080/v1/moderations" ≠ defaultCreateEndpoint := by decide
  have h := ((create_uses_endpoint 0 "text-moderation-latest").2.2
    (serverEnv 200 wellFormedBody) ⟨0⟩ (sampleHeap "text-moderation-latest" ⟨"", "hello"⟩)
    0 0 "http://127.0.0.1:8080/v1/moderations").2.2.2 _ hm rfl
  ⟨hm, rfl, hu, h.elim fun req hr => ⟨req, hr.1, hr.2.1, hr.2.2.1, hr.2.2.2.1, hr.2.2.2.2 hu⟩⟩

/-- C9: a call of `Create`, whatever its outcome, leaves every session and every client
as it was, leaves the Input of every request as it was, leaves every other request as it
was, leaves a request with non-empty Model as it was, and sets an empty Model to the
default model of the client. -/
theorem create_frame (env : Env Request Response) (ctx : Context) (h : Heap) (c p : Ptr) :
    (Create env ctx h c p).heap.sessions = h.sessions ∧
    (Create env ctx h c p).heap.clients = h.clients ∧
    (∀ q, ((Create env ctx h c p).heap.requests q).Input = (h.requests q).Input) ∧
    (∀ q, q ≠ p → (Create env ctx h c p).heap.requests q = h.requests q) ∧
    ((h.requests p).Model ≠ "" → (Create env ctx h c p).heap.requests = h.requests) ∧
    ((h.requests p).Model = "" →
      ((Create env ctx h c p).heap.requests p).Model = (h.clients c).model) := by
  rw [Create_heap]
  refine ⟨defaultModel_sessions h c p, defaultModel_clients h c p, ?_, ?_, ?_, ?_⟩
  · intro q
    unfold defaultModel
    split
    · by_cases hq : q = p
      · subst hq; simp
      · simp [Function.update_noteq hq]
    · rfl
  · intro q hq
    unfold defaultModel
    split
    · simp [Function.update_noteq hq]
    · rfl
  · intro hm
    simp [defaultModel, hm]
  · intro hm
    rw [defaultModel_requests]
    simp [hm]

theorem create_frame_witness :
    (((Create (serverEnv 500 "") ⟨0⟩ (sampleHeap "text-moderation-latest" ⟨"", "hello"⟩)
        0 0).heap.requests 0).Model = "text-moderation-latest") ∧
    (((Create (serverEnv 500 "") ⟨0⟩ (sampleHeap "text-moderation-latest" ⟨"own", "hello"⟩)
        0 0).heap.requests 0) = ⟨"own", "hello"⟩) :=
  ⟨(create_frame (serverEnv 500 "") ⟨0⟩ (sampleHeap "text-moderation-latest" ⟨"", "hello"⟩)
      0 0).2.2.2.2.2 rfl,
   congrFun ((create_frame (serverEnv 500 "") ⟨0⟩
      (sampleHeap "text-moderation-latest" ⟨"own", "hello"⟩) 0 0).2.2.2.2.1 (by decide)) 0⟩

theorem defaultModel_idem (h : Heap) (c p : Ptr) :
    defaultModel (defaultModel h c p) c p = defaultModel h c p := by
  by_cases hm : (h.requests p).Model = ""
  · by_cases hd : (h.clients c).model = ""
    · simp [defaultModel, hm, hd]
    · simp [defaultModel, hm, hd]
  · simp [defaultModel, hm]

/-- C10: after `A.Create` on a request with empty Model, where the default model `a` of
client A is not empty, `B.Create` on the same request object enters `MakeRequest` with
model `a`, hands a payload with model `a` to `json.Marshal` and, when the payload is
serialized and the request constructed, sends one request whose body is that
serialization (with `encoding/json`: an object whose `model` is `a`); so it does not send
the default of B when that differs, whatever the outcome of the first call; and a second
`Create` through the same client leaves the heap as the first call left it. -/
theorem create_defaulting_sticky (envA envB : Env Request Response) (ctxA ctxB : Context)
    (h : Heap) (cA cB p : Ptr)
    (hp : (h.requests p).Model = "") (ha : (h.clients cA).model ≠ "") :
    (exchanges (Create envB ctxB (Create envA ctxA h cA p).heap cB p).trace).map
        (fun x => x.2.Model) = [(h.clients cA).model] ∧
    ((h.clients cA).model ≠ (h.clients cB).model →
      (h.clients cB).model ∉
        (exchanges (Create envB ctxB (Create envA ctxA h cA p).heap cB p).trace).map
          (fun x => x.2.Model)) ∧
    (∀ (env1 env2 : Env Request Response) (ctx1 ctx2 : Context) (h0 : Heap) (c0 p0 : Ptr),
      (Create env2 ctx2 (Create env1 ctx1 h0 c0 p0).heap c0 p0).heap =
        (Create env1 ctx1 h0 c0 p0).heap) ∧
    Event.marshal ⟨(h.clients cA).model, (h.requests p).Input⟩
        (envB.jsonMarshal ⟨(h.clients cA).model, (h.requests p).Input⟩) ∈
      (Create envB ctxB (Create envA ctxA h cA p).heap cB p).trace ∧
    (∀ data : String,
      envB.jsonMarshal ⟨(h.clients cA).model, (h.requests p).Input⟩ = .ok data →
      envB.newRequestError ctxB "POST" (h.clients cB).CreateEndpoint = none →
      ∃ req, sent (Create envB ctxB (Create envA ctxA h cA p).heap cB p).trace = [req] ∧
        req.URL = (h.clients cB).CreateEndpoint ∧ req.Body = data) ∧
    (∀ (newRequestError : Context → String → String → Option GoError)
        (clientDo : HTTPRequest → Except GoError HTTPResponse),
      newRequestError ctxB "POST" (h.clients cB).CreateEndpoint = none →
      ∃ req, sent (Create (goEnv newRequestError clientDo) ctxB
          (Create envA ctxA h cA p).heap cB p).trace = [req] ∧
        req.Body = "\x7b\"model\":" ++ quote (h.clients cA).model ++ ",\"input\":" ++
          quote (h.requests p).Input ++ "\x7d" ∧
        readValue req.Body =
          .ok (.obj [("model", .str (h.clients cA).model),
            ("input", .str (h.requests p).Input)])) := by
  have hpay : ∀ envB : Env Request Response,
      (defaultModel (Create envA ctxA h cA p).heap cB p).requests p =
        ⟨(h.clients cA).model, (h.requests p).Input⟩ := by
    intro envB
    rw [Create_heap, defaultModel_requests, defaultModel_requests]
    simp [hp, ha]
  have hcl : (defaultModel (Create envA ctxA h cA p).heap cB p).clients = h.clients := by
    rw [defaultModel_clients, Create_heap, defaultModel_clients]
  have key : (exchanges (Create envB ctxB (Create envA ctxA h cA p).heap cB p).trace).map
      (fun x => x.2.Model) = [(h.clients cA).model] := by
    rw [Create_trace, exchanges_MakeRequest, Create_heap]
    simp [defaultModel_requests, hp, ha]
  have hsent : ∀ (envB : Env Request Response) (data : String),
      envB.jsonMarshal ⟨(h.clients cA).model, (h.requests p).Input⟩ = .ok data →
      envB.newRequestError ctxB "POST" (h.clients cB).CreateEndpoint = none →
      ∃ req, sent (Create envB ctxB (Create envA ctxA h cA p).heap cB p).trace = [req] ∧
        req.URL = (h.clients cB).CreateEndpoint ∧ req.Body = data := by
    intro envB data hm hn
    rw [Create_trace, hpay envB, hcl]
    exact ⟨_, sent_MakeRequest_of_ok envB _ ctxB _ _ _ data hm hn, rfl, rfl⟩
  refine ⟨key, ?_, ?_, ?_, hsent envB, ?_⟩
  · intro hne
    rw [key]
    simpa using fun hh => hne hh.symm
  · intro env1 env2 ctx1 ctx2 h0 c0 p0
    rw [Create_heap, Create_heap, defaultModel_idem]
  · rw [Create_trace, hpay envB]
    exact marshal_mem_MakeRequest envB _ ctxB _ _ _
  · intro nre cd hn
    obtain ⟨req, hs, _, hb⟩ := hsent (goEnv nre cd) _ rfl hn
    refine ⟨req, hs, hb, ?_⟩
    rw [hb]
    obtain ⟨body, hbody, hread⟩ :=
      readValue_marshalRequest ⟨(h.clients cA).model, (h.requests p).Input⟩
    cases hbody
    exact hread

theorem create_defaulting_sticky_witness :
    ((twoClientHeap "model-a" "model-b" ⟨"", "hello"⟩).requests 7).Model = "" ∧
    ((twoClientHeap "model-a" "model-b" ⟨"", "hello"⟩).clients 0).model ≠ "" ∧
    ((twoClientHeap "model-a" "model-b" ⟨"", "hello"⟩).clients 0).model ≠
      ((twoClientHeap "model-a" "model-b" ⟨"", "hello"⟩).clients 1).model ∧
    (exchanges (Create (serverEnv 200 wellFormedBody) ⟨1⟩
      (Create offlineEnv ⟨0⟩ (twoClientHeap "model-a" "model-b" ⟨"", "hello"⟩) 0 7).heap
      1 7).trace).map (fun x => x.2.Model) = ["model-a"] ∧
    "model-b" ∉ (exchanges (Create (serverEnv 200 wellFormedBody) ⟨1⟩
      (Create offlineEnv ⟨0⟩ (twoClientHeap "model-a" "model-b" ⟨"", "hello"⟩) 0 7).heap
      1 7).trace).map (fun x => x.2.Model) ∧
    ∃ req, sent (Create (serverEnv 200 wellFormedBody) ⟨1⟩
        (Create offlineEnv ⟨0⟩ (twoClientHeap "model-a" "model-b" ⟨"", "hello"⟩) 0 7).heap
        1 7).trace = [req] ∧
      req.Body = "\x7b\"model\":\"model-a\",\"input\":\"hello\"\x7d" :=
  have hne : ((twoClientHeap "model-a" "model-b" ⟨"", "hello"⟩).clients 0).model ≠
      ((twoClientHeap "model-a" "model-b" ⟨"", "hello"⟩).clients 1).model := by decide
  have hm : (serverEnv 200 wellFormedBody).jsonMarshal
      ⟨((twoClientHeap "model-a" "model-b" ⟨"", "hello"⟩).clients 0).model,
        ((twoClientHeap "model-a" "model-b" ⟨"", "hello"⟩).requests 7).Input⟩ =
      .ok "\x7b\"model\":\"model-a\",\"input\":\"hello\"\x7d" := by
    simp [serverEnv, goEnv, marshalRequest, twoClientHeap, NewClient, quote, escapeChar]
  have h := create_defaulting_sticky offlineEnv (serverEnv 200 wellFormedBody) ⟨0⟩ ⟨1⟩
    (twoClientHeap "model-a" "model-b" ⟨"", "hello"⟩) 0 1 7 rfl (by decide)
  ⟨rfl, by decide, hne, h.1, h.2.1 hne,
    (h.2.2.2.2.1 _ hm rfl).elim fun req hr => ⟨req, hr.1, hr.2.2⟩⟩

theorem append_ne_of_take (a b x y : String) (k : Nat) (ha : k ≤ a.length)
    (hb : k ≤ b.length) (hne : a.data.take k ≠ b.data.take k) : a ++ x ≠ b ++ y := by
  intro heq
  apply hne
  have h1 := congrArg (fun s : String => s.data.take k) heq
  simp only [String.data_append] at h1
  rwa [List.take_append_of_le_length (by simpa using ha),
    List.take_append_of_le_length (by simpa using hb)] at h1

/-- C5, as the code has it: a failure to serialize the payload, to construct the request
or to reach the server is returned as an error that unwraps to the cause and whose
message is the message of the cause after a prefix of its own; a status code other than
200 is returned as an error with a message of its own form that wraps nothing; a failure
to decode the body is returned as an error; and the four forms of message differ, whatever
the causes. -/
theorem makeRequest_error_forms {α β : Type} (env : Env α β) (s : Session) (ctx : Context)
    (url : String) (payload : α) (result : β) :
    (∀ (q : α) (e : GoError),
      Event.marshal q (.error e) ∈ (MakeRequest env s ctx url payload result).trace →
      ∃ err, (MakeRequest env s ctx url payload result).err = some err ∧
        err.Error = "failed to marshal payload: " ++ e.Error ∧ err.Unwrap = some e) ∧
    (∀ (m u b : String) (e : GoError),
      Event.newRequest m u b (.error e) ∈ (MakeRequest env s ctx url payload result).trace →
      ∃ err, (MakeRequest env s ctx url payload result).err = some err ∧
        err.Error = "failed to create request: " ++ e.Error ∧ err.Unwrap = some e) ∧
    (∀ (req : HTTPRequest) (e : GoError),
      Event.send req (.error e) ∈ (MakeRequest env s ctx url payload result).trace →
      ∃ err, (MakeRequest env s ctx url payload result).err = some err ∧
        err.Error = "request failed: " ++ e.Error ∧ err.Unwrap = some e) ∧
    (∀ (req : HTTPRequest) (resp : HTTPResponse),
      Event.send req (.ok resp) ∈ (MakeRequest env s ctx url payload result).trace →
      resp.StatusCode ≠ 200 →
      ∃ err, (MakeRequest env s ctx url payload result).err = some err ∧
        err.Error = "non-200 status code: " ++ fmtD resp.StatusCode ∧ err.Unwrap = none) ∧
    (∀ (body : String) (e : GoError),
      Event.decode body (some e) ∈ (MakeRequest env s ctx url payload result).trace →
      (MakeRequest env s ctx url payload result).err ≠ none) ∧
    (∀ x y : String,
      "failed to marshal payload: " ++ x ≠ "failed to create request: " ++ y ∧
      "failed to marshal payload: " ++ x ≠ "request failed: " ++ y ∧
      "failed to marshal payload: " ++ x ≠ "non-200 status code: " ++ y ∧
      "failed to create request: " ++ x ≠ "request failed: " ++ y ∧
      "failed to create request: " ++ x ≠ "non-200 status code: " ++ y ∧
      "request failed: " ++ x ≠ "non-200 status code: " ++ y) := by
  refine ⟨?_, ?_, ?_, ?_, ?_, ?_⟩
  · intro q e hmem
    exact ⟨_, MakeRequest_marshal_error env s ctx url payload q result e hmem, rfl, rfl⟩
  · intro m u b e hmem
    exact ⟨_, MakeRequest_newRequest_error env s ctx url payload result m u b e hmem, rfl, rfl⟩
  · intro req e hmem
    exact ⟨_, MakeRequest_send_error env s ctx url payload result req e hmem, rfl, rfl⟩
  · intro req resp hmem hcode
    exact ⟨_, ((MakeRequest_send_ok env s ctx url payload result req resp hmem).1 hcode).1,
      rfl, rfl⟩
  · intro body e hmem
    rw [MakeRequest_decode_mem env s ctx url payload result body (some e) hmem]
    simp
  · intro x y
    refine ⟨?_, ?_, ?_, ?_, ?_, ?_⟩
    · exact append_ne_of_take _ _ x y 11 (by decide) (by decide) (by decide)
    · exact append_ne_of_take _ _ x y 1 (by decide) (by decide) (by decide)
    · exact append_ne_of_take _ _ x y 1 (by decide) (by decide) (by decide)
    · exact append_ne_of_take _ _ x y 1 (by decide) (by decide) (by decide)
    · exact append_ne_of_take _ _ x y 1 (by decide) (by decide) (by decide)
    · exact append_ne_of_take _ _ x y 1 (by decide) (by decide) (by decide)

theorem makeRequest_error_forms_witness :
    Event.send ⟨⟨0⟩, "POST", "https://api.openai.com/v1/moderations",
        [("Content-Type", "application/json"), ("Authorization", "Bearer sk-test")],
        "\x7b\"model\":\"m\",\"input\":\"hello\"\x7d"⟩
      (.error (.lib "dial tcp: connection refused")) ∈
      (MakeRequest offlineEnv ⟨"sk-test"⟩ ⟨0⟩ "https://api.openai.com/v1/moderations"
        (⟨"m", "hello"⟩ : Request) Response.zero).trace ∧
    ∃ err, (MakeRequest offlineEnv ⟨"sk-test"⟩ ⟨0⟩ "https://api.openai.com/v1/moderations"
        (⟨"m", "hello"⟩ : Request) Response.zero).err = some err ∧
      err.Error = "request failed: " ++ (GoError.lib "dial tcp: connection refused").Error ∧
      err.Unwrap = some (.lib "dial tcp: connection refused") :=
  have hmem : Event.send ⟨⟨0⟩, "POST", "https://api.openai.com/v1/moderations",
        [("Content-Type", "application/json"), ("Authorization", "Bearer sk-test")],
        "\x7b\"model\":\"m\",\"input\":\"hello\"\x7d"⟩
      (.error (.lib "dial tcp: connection refused")) ∈
      (MakeRequest offlineEnv ⟨"sk-test"⟩ ⟨0⟩ "https://api.openai.com/v1/moderations"
        (⟨"m", "hello"⟩ : Request) Response.zero).trace := by
    simp [MakeRequest, NewRequestWithContext, offlineEnv, goEnv, marshalRequest,
      HTTPRequest.setHeader, Header.Set, Sprintf_s, quote, escapeChar]
  ⟨hmem, (makeRequest_error_forms offlineEnv ⟨"sk-test"⟩ ⟨0⟩
    "https://api.openai.com/v1/moderations" (⟨"m", "hello"⟩ : Request) Response.zero).2.2.1
      _ _ hmem⟩

/-- C5 as stated fails: the error of a failed decode is returned as it comes from the
decoder, so it does not unwrap to that cause; and the error for a status code other than
200 wraps nothing. -/
theorem makeRequest_decode_error_not_wrapped :
    (Event.decode truncatedBody (some (.lib "unexpected EOF")) ∈
        (MakeRequest (serverEnv 200 truncatedBody) ⟨"sk-test"⟩ ⟨0⟩
          "https://api.openai.com/v1/moderations" (⟨"m", "hello"⟩ : Request)
          Response.zero).trace ∧
      (MakeRequest (serverEnv 200 truncatedBody) ⟨"sk-test"⟩ ⟨0⟩
          "https://api.openai.com/v1/moderations" (⟨"m", "hello"⟩ : Request)
          Response.zero).err = some (.lib "unexpected EOF") ∧
      ¬ ((MakeRequest (serverEnv 200 truncatedBody) ⟨"sk-test"⟩ ⟨0⟩
          "https://api.openai.com/v1/moderations" (⟨"m", "hello"⟩ : Request)
          Response.zero).err.bind GoError.Unwrap = some (.lib "unexpected EOF"))) ∧
    ((MakeRequest (serverEnv 500 "") ⟨"sk-test"⟩ ⟨0⟩
          "https://api.openai.com/v1/moderations" (⟨"m", "hello"⟩ : Request)
          Response.zero).err = some (.errorString "non-200 status code: 500") ∧
      (MakeRequest (serverEnv 500 "") ⟨"sk-test"⟩ ⟨0⟩
          "https://api.openai.com/v1/moderations" (⟨"m", "hello"⟩ : Request)
          Response.zero).err.bind GoError.Unwrap = none) := by
  have hdec : decodeResponse truncatedBody Response.zero =
      (Response.zero, some (.lib "unexpected EOF")) := by decide!
  have h500 : fmtD 500 = "500" := by decide
  refine ⟨⟨?_, ?_, ?_⟩, ?_, ?_⟩ <;>
  simp [MakeRequest, NewRequestWithContext, serverEnv, goEnv, marshalRequest, StatusOK,
      hdec, GoError.Unwrap, Errorf_d, h500]

/-- C7: `MakeRequest` sends at most one request, and none when the payload cannot be
serialized or the request cannot be constructed; when both succeed it sends one request,
with method POST, to the given URL, with the headers `Content-Type: application/json` and
`Authorization: Bearer ` followed by the API key, and with the serialized payload as its
body.  For a `Request` payload the body, read back as JSON, is an object with the two
members `model` and `input`, in this order, holding the two strings of the payload. -/
theorem makeRequest_outbound {α β : Type} (env : Env α β) (s : Session) (ctx : Context)
    (url : String) (payload : α) (result : β) :
    (sent (MakeRequest env s ctx url payload result).trace).length ≤ 1 ∧
    (∀ e, env.jsonMarshal payload = .error e →
      sent (MakeRequest env s ctx url payload result).trace = []) ∧
    (∀ e, env.newRequestError ctx "POST" url = some e →
      sent (MakeRequest env s ctx url payload result).trace = []) ∧
    (∀ data, env.jsonMarshal payload = .ok data → env.newRequestError ctx "POST" url = none →
      ∃ req, sent (MakeRequest env s ctx url payload result).trace = [req] ∧
        req.Method = "POST" ∧ req.URL = url ∧
        req.Header.Get "Content-Type" = "application/json" ∧
        req.Header.Get "Authorization" = "Bearer " ++ s.APIKey ∧
        req.Body = data) ∧
    (∀ (newRequestError : Context → String → String → Option GoError)
        (clientDo : HTTPRequest → Except GoError HTTPResponse) (p : Request) (r : Response),
      newRequestError ctx "POST" url = none →
      ∃ req, sent (MakeRequest (goEnv newRequestError clientDo) s ctx url p r).trace = [req] ∧
        req.Body =
          "\x7b\"model\":" ++ quote p.Model ++ ",\"input\":" ++ quote p.Input ++ "\x7d" ∧
        readValue req.Body = .ok (.obj [("model", .str p.Model), ("input", .str p.Input)])) := by
  have main : ∀ {γ δ : Type} (env : Env γ δ) (payload : γ) (result : δ) (data : String),
      env.jsonMarshal payload = .ok data → env.newRequestError ctx "POST" url = none →
      ∃ req, sent (MakeRequest env s ctx url payload result).trace = [req] ∧
        req.Method = "POST" ∧ req.URL = url ∧
        req.Header.Get "Content-Type" = "application/json" ∧
        req.Header.Get "Authorization" = "Bearer " ++ s.APIKey ∧
        req.Body = data := by
    intro γ δ env payload result data hm hn
    refine ⟨⟨ctx, "POST", url,
      [("Content-Type", "application/json"), ("Authorization", "Bearer " ++ s.APIKey)],
      data⟩, ?_, rfl, rfl, ?_, ?_, rfl⟩
    · rcases MakeRequest_cases env s ctx url payload result with
        ⟨e, hm1, h⟩ | ⟨d1, e, hm1, hn1, h⟩ | ⟨d1, req1, hm1, hn1, hreq1, ⟨e, _, h⟩ |
          ⟨resp, _, _, h⟩ | ⟨resp, _, _, h⟩⟩
      · rw [hm] at hm1; cases hm1
      · rw [hn] at hn1; cases hn1
      all_goals
        rw [hm] at hm1
        cases hm1
        rw [h, hreq1]
        simp [sent]
    · simp [Header.Get]
    · simp [Header.Get]
  refine ⟨?_, ?_, ?_, main env payload result, ?_⟩
  · rcases MakeRequest_cases env s ctx url payload result with
      ⟨e, _, h⟩ | ⟨d1, e, _, _, h⟩ | ⟨d1, req1, _, _, _, ⟨e, _, h⟩ |
        ⟨resp, _, _, h⟩ | ⟨resp, _, _, h⟩⟩ <;>
    · rw [h]
      simp [sent]
  · intro e he
    simp [MakeRequest, he, sent]
  · intro e he
    cases hm : env.jsonMarshal payload with
    | error e1 => simp [MakeRequest, hm, sent]
    | ok data => simp [MakeRequest, hm, NewRequestWithContext, he, sent]
  · intro nre cd p r hn
    obtain ⟨req, hs, _, _, _, _, hb⟩ := main (goEnv nre cd) p r _ rfl hn
    refine ⟨req, hs, hb, ?_⟩
    rw [hb]
    obtain ⟨body, hbody, hread⟩ := readValue_marshalRequest p
    cases hbody
    exact hread

theorem makeRequest_outbound_witness :
    ∃ req, sent (MakeRequest (serverEnv 200 wellFormedBody) ⟨"sk-test"⟩ ⟨0⟩
        "https://api.openai.com/v1/moderations" (⟨"m", "a \"b\""⟩ : Request)
        Response.zero).trace = [req] ∧
      req.Body = "\x7b\"model\":" ++ quote "m" ++ ",\"input\":" ++ quote "a \"b\"" ++ "\x7d" ∧
      readValue req.Body = .ok (.obj [("model", .str "m"), ("input", .str "a \"b\"")]) :=
  (makeRequest_outbound (serverEnv 200 wellFormedBody) ⟨"sk-test"⟩ ⟨0⟩
    "https://api.openai.com/v1/moderations" (⟨"m", "a \"b\""⟩ : Request)
    Response.zero).2.2.2.2 (fun _ _ _ => none) (fun _ => .ok ⟨200, wellFormedBody⟩)
    ⟨"m", "a \"b\""⟩ Response.zero rfl

end Moderation
